import Mathlib

/-!
# Connection repository (`src/lib/modules/connection/repository.js`)

A shallow embedding of the flat-file connection repository: the JSON file on
disk, the config-record / entity mapper and the `create`, `list` and `delete`
operations.

Conventions of the embedding.

* A JavaScript scalar is a `JVal`; a property that is absent from an object and
  a property whose value is `undefined` are the same thing (`JSON.stringify`
  drops the latter, so they are also the same thing on disk).
* `uuid.v4()` is an external generator.  It is modelled as a supply
  `IdGen.draw : Nat → String` of non-empty strings, read at a counter that is
  advanced by each call, so that the number and the order of the calls made by
  the code are part of the model.
* Promises are run to completion: an operation maps a `World` to a result
  (`Except`) and the next `World`.
* Arrays are lists; `push` appends, `splice(index, 1)` is `List.eraseIdx`.
* `jsonfile` is external.  A read answers with the `(err, data)` pair that
  `jsonfile.readFile` gives for the state of the file; a write replaces the
  document, unless the medium refuses writes (`World.writeFault`).
* The file is taken to hold an array of objects whose `databases`, when there,
  is an array of objects; every other property may be any scalar or absent.
-/

namespace Mongotron

/-! ## JavaScript values -/

/-- A JavaScript scalar as it can come out of `JSON.parse`, plus `undefined`
for a property that is not there.  Numbers are the integers. -/
inductive JVal where
  | undefined
  | null
  | bool (b : Bool)
  | num (n : Int)
  | str (s : String)
  deriving DecidableEq, Repr

/-- JavaScript truthiness, as tested by `||` and `if (...)`. -/
def JVal.truthy : JVal → Bool
  | .undefined => false
  | .null => false
  | .bool b => b
  | .num n => n != 0
  | .str s => s != ""

/-! ## The persisted shape and the entities -/

/-- The `auth` object of a database: `{id, username, password}`. -/
structure Auth where
  id : JVal
  username : JVal
  password : JVal
  deriving DecidableEq, Repr

/-- A raw database record of the JSON file.  `auth` is `none` when the record
has no `auth` property. -/
structure DatabaseConfig where
  id : JVal
  name : JVal
  host : JVal
  port : JVal
  auth : Option Auth
  deriving DecidableEq, Repr

/-- A raw connection record of the JSON file.  `databases` is `none` when the
record has no `databases` property. -/
structure ConnectionConfig where
  id : JVal
  name : JVal
  host : JVal
  port : JVal
  databases : Option (List DatabaseConfig)
  deriving DecidableEq, Repr

/-- Modelled from the spec: the Database entity built by `addDatabase`
(`lib/entities` is not part of the sources): a value object with the fields
`id`, `name`, `host`, `port` and an optional `auth`. -/
structure Database where
  id : JVal
  name : JVal
  host : JVal
  port : JVal
  auth : Option Auth
  deriving DecidableEq, Repr

/-- Modelled from the spec: the Connection entity of `lib/entities/connection`
(not part of the sources): a value object with the fields `id`, `name`,
`host`, `port` and the ordered sequence `databases` it owns. -/
structure Connection where
  id : JVal
  name : JVal
  host : JVal
  port : JVal
  databases : List Database
  deriving DecidableEq, Repr

/-- The `options` object handed to `create`:
`{id?, name, host, port, databaseName, auth?}`. -/
structure Options where
  id : JVal
  name : JVal
  host : JVal
  port : JVal
  databaseName : JVal
  auth : Option Auth
  deriving DecidableEq, Repr

/-- Modelled from the spec: `new Connection(options)` keeps `id`, `name`,
`host` and `port` of its argument and starts with no database. -/
def Connection.new (id name host port : JVal) : Connection :=
  { id := id, name := name, host := host, port := port, databases := [] }

/-- Modelled from the spec: `connection.addDatabase(options)` attaches one
Database built from `options` at the end of `databases`. -/
def Connection.addDatabase (c : Connection) (d : Database) : Connection :=
  { c with databases := c.databases ++ [d] }

/-! ## The id generator -/

/-- The external generator behind `uuid.v4()`: the `n`-th call answers
`draw n`, which is never the empty string. -/
structure IdGen where
  draw : Nat → String
  nonempty : ∀ n, draw n ≠ ""

/-- One call of `uuid.v4()` at counter `n`: the id drawn and the next counter. -/
def uuid_v4 (g : IdGen) (n : Nat) : JVal × Nat :=
  (JVal.str (g.draw n), n + 1)

/-- The expression `v || uuid.v4()`: the generator is called only when `v` is
falsy. -/
def orUuid (g : IdGen) (v : JVal) (n : Nat) : JVal × Nat :=
  if v.truthy then (v, n) else uuid_v4 g n

/-- The method `Array.prototype.map` with a callback that draws ids: the
elements are visited in order and the counter is threaded through. -/
def mapSt {α β : Type} (f : α → Nat → β × Nat) : List α → Nat → List β × Nat
  | [], n => ([], n)
  | x :: xs, n =>
    let r := f x n
    let rs := mapSt f xs r.2
    (r.1 :: rs.1, rs.2)

/-! ## The mapper -/

/-- The object handed to `newConn.addDatabase` by the callback of
`_.each(connectionConfig.databases, ...)`: `id` is `databaseConfig.id ||
uuid.v4()`, host and port are those of the connection record, `auth` is
copied. -/
def databaseFromConfig (g : IdGen) (connectionConfig : ConnectionConfig)
    (databaseConfig : DatabaseConfig) (n : Nat) : Database × Nat :=
  let i := orUuid g databaseConfig.id n
  ({ id := i.1
     name := databaseConfig.name
     host := connectionConfig.host
     port := connectionConfig.port
     auth := databaseConfig.auth },
   i.2)

/-- The loop `_.each(connectionConfig.databases, ...)` of
`generateConnectionInstanceFromConfig`: one `addDatabase` per record. -/
def eachDatabase (g : IdGen) (connectionConfig : ConnectionConfig) :
    List DatabaseConfig → Connection → Nat → Connection × Nat
  | [], newConn, n => (newConn, n)
  | databaseConfig :: rest, newConn, n =>
    let d := databaseFromConfig g connectionConfig databaseConfig n
    eachDatabase g connectionConfig rest (newConn.addDatabase d.1) d.2

/-- `generateConnectionInstanceFromConfig`. -/
def generateConnectionInstanceFromConfig (g : IdGen)
    (connectionConfig : ConnectionConfig) (n : Nat) : Connection × Nat :=
  let i := orUuid g connectionConfig.id n
  let newConn :=
    Connection.new i.1 connectionConfig.name connectionConfig.host connectionConfig.port
  eachDatabase g connectionConfig (connectionConfig.databases.getD []) newConn i.2

/-- `generateConnectionInstancesFromConfig` (`fromConfig`). -/
def generateConnectionInstancesFromConfig (g : IdGen)
    (connectionConfigs : List ConnectionConfig) (n : Nat) : List Connection × Nat :=
  mapSt (generateConnectionInstanceFromConfig g) connectionConfigs n

/-- The callback of `connection.databases.map` in
`convertConnectionInstanceIntoConfig`: `{name}` plus, when `database.auth` is
there, `auth: {id: database.id || uuid.v4(), username, password}`. -/
def convertDatabase (g : IdGen) (database : Database) (n : Nat) : DatabaseConfig × Nat :=
  match database.auth with
  | some auth =>
    let i := orUuid g database.id n
    ({ id := .undefined
       name := database.name
       host := .undefined
       port := .undefined
       auth := some { id := i.1, username := auth.username, password := auth.password } },
     i.2)
  | none =>
    ({ id := .undefined
       name := database.name
       host := .undefined
       port := .undefined
       auth := none },
     n)

/-- `convertConnectionInstanceIntoConfig`. -/
def convertConnectionInstanceIntoConfig (g : IdGen) (connection : Connection) (n : Nat) :
    ConnectionConfig × Nat :=
  let i := orUuid g connection.id n
  let dbs := mapSt (convertDatabase g) connection.databases i.2
  ({ id := i.1
     name := connection.name
     host := connection.host
     port := connection.port
     databases := some dbs.1 },
   dbs.2)

/-- `convertConnectionInstancesIntoConfig` (`toConfig`). -/
def convertConnectionInstancesIntoConfig (g : IdGen) (connections : List Connection)
    (n : Nat) : List ConnectionConfig × Nat :=
  mapSt (convertConnectionInstanceIntoConfig g) connections n

/-- `createConnection`: a Connection built from `options` with exactly one
Database, whose id is drawn from the generator. -/
def createConnection (g : IdGen) (options : Options) (n : Nat) : Connection × Nat :=
  let newConn := Connection.new options.id options.name options.host options.port
  let i := uuid_v4 g n
  (newConn.addDatabase
    { id := i.1
      name := options.databaseName
      host := options.host
      port := options.port
      auth := options.auth },
   i.2)

/-! ## Errors, the file and the world -/

/-- An error object handed to a callback by `jsonfile`: its `code` and its
`message` (`none` when it has none). -/
structure JsError where
  code : String
  message : Option String
  deriving DecidableEq, Repr

/-- What an operation rejects with. -/
inductive OpError where
  | internalService (message : String)
  | error (message : String)
  | storage (e : JsError)
  deriving DecidableEq, Repr

/-- The state of `config/dbConnections.json`. -/
inductive FileState where
  /-- There is no such file. -/
  | missing
  /-- The file is zero bytes long. -/
  | empty
  /-- The file holds a JSON document: `some records` for an array of records,
  `none` for a document that parses to a falsy value (`null`, `false`, `0`,
  `""`). -/
  | json (data : Option (List ConnectionConfig))
  /-- Reading fails with `e` for another reason (malformed JSON, access
  rights, ...). -/
  | unreadable (e : JsError)
  deriving DecidableEq, Repr

/-- The error `fs.readFile` reports for a file that does not exist. -/
def enoent : JsError :=
  { code := "ENOENT"
    message := some "ENOENT: no such file or directory, open config/dbConnections.json" }

/-- The error `JSON.parse` throws on the empty text. -/
def unexpectedEnd : JsError :=
  { code := "SyntaxError", message := some "Unexpected end of input" }

/-- The external `jsonfile.readFile(DB_CONNECTIONS, callback)`: the pair
`(err, data)` the callback is called with. -/
def jsonfile.readFile : FileState → Option JsError × Option (List ConnectionConfig)
  | .missing => (some enoent, none)
  | .empty => (some unexpectedEnd, none)
  | .json data => (none, data)
  | .unreadable e => (some e, none)

/-- Everything an operation can observe or change: the file, the number of
ids drawn so far, the error the storage medium answers a write with (if
any), and how many reads and writes of the file were issued. -/
structure World where
  file : FileState
  uuid : Nat
  writeFault : Option JsError
  reads : Nat
  writes : Nat
  deriving DecidableEq, Repr

/-- `readConfigFile`: rejects with `err` unless its message is exactly
`'Unexpected end of input'`; otherwise resolves with `data || []`. -/
def readConfigFile (w : World) : Except OpError (List ConnectionConfig) × World :=
  let r := jsonfile.readFile w.file
  let w1 := { w with reads := w.reads + 1 }
  match r.1 with
  | some err =>
    if !(err.message == some "Unexpected end of input") then (.error (.storage err), w1)
    else (.ok (r.2.getD []), w1)
  | none => (.ok (r.2.getD []), w1)

/-- `writeConfigFile`: `jsonfile.writeFile` replaces the whole document, or
reports the fault of the medium (the file is then taken to be left as it
was). -/
def writeConfigFile (data : List ConnectionConfig) (w : World) : Except OpError Unit × World :=
  let w1 := { w with writes := w.writes + 1 }
  match w.writeFault with
  | some err => (.error (.storage err), w1)
  | none => (.ok (), { w1 with file := .json (some data) })

/-! ## The repository -/

/-- `removeConnection`: `_.findWhere(connections, {id})` is the first
connection whose `id` is strictly equal to `connectionId`; it is removed with
`splice(indexOf(found), 1)`.  Without a match the promise is rejected. -/
def removeConnection (connectionId : JVal) (connections : List Connection) :
    Except OpError (List Connection) :=
  match connections.find? (fun c => c.id == connectionId) with
  | some foundConnection =>
    let index := connections.indexOf foundConnection
    .ok (connections.eraseIdx index)
  | none => .error (.error "Connection not found")

/-- `ConnectionRepository.list`. -/
def list (g : IdGen) (w : World) : Except OpError (List Connection) × World :=
  match readConfigFile w with
  | (.error e, w1) => (.error e, w1)
  | (.ok connectionConfigs, w1) =>
    let r := generateConnectionInstancesFromConfig g connectionConfigs w1.uuid
    (.ok r.1, { w1 with uuid := r.2 })

/-- `ConnectionRepository.create`; `options` is `none` when the argument is
`undefined` or `null`. -/
def create (g : IdGen) (options : Option Options) (w : World) :
    Except OpError Connection × World :=
  match options with
  | none => (.error (.internalService "options is required"), w)
  | some o =>
    let i := uuid_v4 g w.uuid
    let options1 := { o with id := i.1 }
    match list g { w with uuid := i.2 } with
    | (.error e, w1) => (.error e, w1)
    | (.ok connections, w1) =>
      let c := createConnection g options1 w1.uuid
      let newConnection := c.1
      let cfg := convertConnectionInstancesIntoConfig g (connections ++ [newConnection]) c.2
      match writeConfigFile cfg.1 { w1 with uuid := cfg.2 } with
      | (.error e, w2) => (.error e, w2)
      | (.ok _, w2) => (.ok newConnection, w2)

/-- `ConnectionRepository.delete`. -/
def delete (g : IdGen) (id : JVal) (w : World) : Except OpError Unit × World :=
  match list g w with
  | (.error e, w1) => (.error e, w1)
  | (.ok connections, w1) =>
    match removeConnection id connections with
    | .error e => (.error e, w1)
    | .ok remaining =>
      let cfg := convertConnectionInstancesIntoConfig g remaining w1.uuid
      match writeConfigFile cfg.1 { w1 with uuid := cfg.2 } with
      | (.error e, w2) => (.error e, w2)
      | (.ok _, w2) => (.ok (), w2)

/-! ## Vocabulary of the statements -/

/-- The names of the databases of a raw record, in order (none when the record
has no `databases` property). -/
def ConnectionConfig.databaseNames (r : ConnectionConfig) : List JVal :=
  (r.databases.getD []).map (fun d => d.name)

/-- The names of the databases of a Connection, in order. -/
def Connection.databaseNames (c : Connection) : List JVal :=
  c.databases.map (fun d => d.name)

/-- What a rewrite of the file keeps of a stored record `r` in the record
`r1` written in its place: name, host, port, the names of the databases in
order, and the id when `r` has a truthy one. -/
def ConnectionConfig.keptIn (r r1 : ConnectionConfig) : Prop :=
  r1.name = r.name ∧ r1.host = r.host ∧ r1.port = r.port ∧
    r1.databaseNames = r.databaseNames ∧ (r.id.truthy = true → r1.id = r.id)

/-- What `toConfig` followed by `fromConfig` keeps of a Connection `c` in the
Connection `c1` built in its place: name, host, port, the names of the
databases in order and a truthy id; `c1` always has a truthy id, and each of
its databases has the host and port of `c1`. -/
def Connection.roundTripsTo (c c1 : Connection) : Prop :=
  c1.name = c.name ∧ c1.host = c.host ∧ c1.port = c.port ∧
    c1.databaseNames = c.databaseNames ∧
    (c.id.truthy = true → c1.id = c.id) ∧ c1.id.truthy = true ∧
    ∀ d ∈ c1.databases, d.host = c1.host ∧ d.port = c1.port

/-- What two loads of one stored database record `r` agree on: name, host,
port, auth, and the id when `r` has a truthy one. -/
def DatabaseConfig.loadsAgree (r : DatabaseConfig) (d1 d2 : Database) : Prop :=
  d1.name = d2.name ∧ d1.host = d2.host ∧ d1.port = d2.port ∧ d1.auth = d2.auth ∧
    (r.id.truthy = true → d1.id = d2.id)

/-- What two loads of one stored record `r` agree on: name, host, port, the
id when `r` has a truthy one, the number of databases (that of `r`) and,
database by database, `DatabaseConfig.loadsAgree`. -/
def ConnectionConfig.loadsAgree (r : ConnectionConfig) (c1 c2 : Connection) : Prop :=
  c1.name = c2.name ∧ c1.host = c2.host ∧ c1.port = c2.port ∧
    (r.id.truthy = true → c1.id = c2.id) ∧
    c1.databases.length = (r.databases.getD []).length ∧
    c2.databases.length = (r.databases.getD []).length ∧
    ∀ (j : Nat) (rd : DatabaseConfig) (d1 d2 : Database),
      (r.databases.getD [])[j]? = some rd → c1.databases[j]? = some d1 →
        c2.databases[j]? = some d2 → rd.loadsAgree d1 d2

/-- The fields of a Connection that the claims compare: id, name, host, port
and the names of its databases in order. -/
def Connection.core (c : Connection) : JVal × JVal × JVal × JVal × List JVal :=
  (c.id, c.name, c.host, c.port, c.databaseNames)

/-- The same fields of a raw record. -/
def ConnectionConfig.core (r : ConnectionConfig) : JVal × JVal × JVal × JVal × List JVal :=
  (r.id, r.name, r.host, r.port, r.databaseNames)

/-- The Connection `c` shows the stored record `r`: same name, host, port and
database names, and the id of `r` when that is truthy. -/
def ConnectionConfig.loadedAs (r : ConnectionConfig) (c : Connection) : Prop :=
  c.name = r.name ∧ c.host = r.host ∧ c.port = r.port ∧
    c.databaseNames = r.databaseNames ∧ (r.id.truthy = true → c.id = r.id)

/-- The Database `d` is what the mapper builds from the database record `rd`
of the connection record `r`: the name and auth of `rd`, the host and port of
`r`, the id of `rd` when that is truthy and a drawn id otherwise. -/
def DatabaseConfig.builds (g : IdGen) (r : ConnectionConfig) (rd : DatabaseConfig)
    (d : Database) : Prop :=
  d.name = rd.name ∧ d.host = r.host ∧ d.port = r.port ∧ d.auth = rd.auth ∧
    (rd.id.truthy = true → d.id = rd.id) ∧
    (rd.id.truthy = false → ∃ k, d.id = .str (g.draw k))

/-- The Connection `c` is what the mapper builds from the record `r`: name,
host and port of `r`, the id of `r` when that is truthy and a drawn id
otherwise, and one Database per database record of `r`, in order. -/
def ConnectionConfig.builds (g : IdGen) (r : ConnectionConfig) (c : Connection) : Prop :=
  c.name = r.name ∧ c.host = r.host ∧ c.port = r.port ∧
    (r.id.truthy = true → c.id = r.id) ∧
    (r.id.truthy = false → ∃ k, c.id = .str (g.draw k)) ∧
    c.databases.length = (r.databases.getD []).length ∧
    ∀ (j : Nat) (rd : DatabaseConfig) (d : Database),
      (r.databases.getD [])[j]? = some rd → c.databases[j]? = some d → rd.builds g r d

/-- The number of ids a record lacks: its own, when falsy, and that of each
of its database records. -/
def ConnectionConfig.missingIds (r : ConnectionConfig) : Nat :=
  (if r.id.truthy then 0 else 1) +
    ((r.databases.getD []).map (fun d => if d.id.truthy then 0 else 1)).sum

/-- What a rewrite of the file keeps of a stored database record `rd` in the
record `rd1` written in its place: the name, the presence or absence of auth,
and the username and password of the auth. -/
def DatabaseConfig.rewrittenAs (rd rd1 : DatabaseConfig) : Prop :=
  rd1.name = rd.name ∧ (rd.auth = none → rd1.auth = none) ∧
    ∀ a, rd.auth = some a →
      ∃ a1, rd1.auth = some a1 ∧ a1.username = a.username ∧ a1.password = a.password

/-- The record `r1` is a lossless rewrite of the stored record `r`: same id,
name, host and port, and both have a `databases` array, of the same length,
related position by position by `DatabaseConfig.rewrittenAs`. -/
def ConnectionConfig.rewrittenAs (r r1 : ConnectionConfig) : Prop :=
  r1.id = r.id ∧ r1.name = r.name ∧ r1.host = r.host ∧ r1.port = r.port ∧
    ∃ dbs dbs1, r.databases = some dbs ∧ r1.databases = some dbs1 ∧
      dbs1.length = dbs.length ∧ List.Forall₂ DatabaseConfig.rewrittenAs dbs dbs1

/-- The record `r1` written in the place of `r` loses nothing, provided `r`
has a truthy id and a `databases` array. -/
def ConnectionConfig.losslessIn (r r1 : ConnectionConfig) : Prop :=
  r.id.truthy = true → ∀ dbs, r.databases = some dbs → r.rewrittenAs r1

/-- A generator for the examples: the `n`-th id is `u` repeated `n + 1`
times. -/
def unaryGen : IdGen where
  draw n := String.mk (List.replicate (n + 1) 'u')
  nonempty n := by
    intro h
    have h1 := congrArg String.length h
    simp [String.length] at h1

/-! ## Example data -/

/-- A stored record with id `abc` and one database without credentials. -/
def recordAbc : ConnectionConfig :=
  { id := .str "abc", name := .str "n0", host := .str "h0", port := .num 27017
    databases := some
      [{ id := .undefined, name := .str "d0", host := .undefined, port := .undefined,
         auth := none }] }

/-- A world whose file holds the records `rs`; no id has been drawn, writes
go through. -/
def worldOf (rs : List ConnectionConfig) : World :=
  { file := .json (some rs), uuid := 0, writeFault := none, reads := 0, writes := 0 }

/-- The options of the test `create({id:"x", name:"a", host:"h", port:1,
databaseName:"d"})`. -/
def optionsP3 : Options :=
  { id := .str "x", name := .str "a", host := .str "h", port := .num 1
    databaseName := .str "d", auth := none }

/-- The connection that `create(optionsP3)` resolves with in `worldOf
[recordAbc]` under `unaryGen`. -/
def createdP3 : Connection :=
  { id := .str "u", name := .str "a", host := .str "h", port := .num 1
    databases :=
      [{ id := .str "uuu", name := .str "d", host := .str "h", port := .num 1, auth := none }] }

/-- A second stored record that carries the id `abc` as well. -/
def recordAbcTwin : ConnectionConfig :=
  { id := .str "abc", name := .str "n1", host := .str "h1", port := .num 27018
    databases := some [] }

/-- The connection `list()` loads from `recordAbc` under `unaryGen` when no id
has been drawn before: the database gets the first id. -/
def loadedAbc : Connection :=
  { id := .str "abc", name := .str "n0", host := .str "h0", port := .num 27017
    databases :=
      [{ id := .str "u", name := .str "d0", host := .str "h0", port := .num 27017,
         auth := none }] }

/-- A world around the file state `f`; no id has been drawn, writes go
through. -/
def worldWith (f : FileState) : World :=
  { file := f, uuid := 0, writeFault := none, reads := 0, writes := 0 }

/-- A Database entity with id `d1` whose credentials carry the id `a1`. -/
def databaseWithAuth : Database :=
  { id := .str "d1", name := .str "d0", host := .str "h0", port := .num 27017
    auth := some { id := .str "a1", username := .str "user", password := .str "pw" } }

/-- A Connection entity owning `databaseWithAuth`. -/
def connectionWithAuth : Connection :=
  { id := .str "abc", name := .str "n0", host := .str "h0", port := .num 27017
    databases := [databaseWithAuth] }

/-- A stored record without id and without a `databases` property. -/
def recordNoId : ConnectionConfig :=
  { id := .undefined, name := .str "n2", host := .str "h2", port := .num 27019
    databases := none }

/-- The connection that `create(optionsP3)` resolves with in `worldOf
[recordNoId, recordAbc]` under `unaryGen`. -/
def createdAfterNoId : Connection :=
  { id := .str "u", name := .str "a", host := .str "h", port := .num 1
    databases :=
      [{ id := .str "uuuu", name := .str "d", host := .str "h", port := .num 1, auth := none }] }

/-- The options of the scenario `create({name:"db1", host:"localhost",
port:5432, databaseName:"mydb"})`. -/
def optionsDb1 : Options :=
  { id := .undefined, name := .str "db1", host := .str "localhost", port := .num 5432
    databaseName := .str "mydb", auth := none }

/-- A stored record whose id `u` is also the first id that `unaryGen`
draws. -/
def recordU : ConnectionConfig :=
  { id := .str "u", name := .str "n3", host := .str "h3", port := .num 27020
    databases := some [] }

/-- A stored record with id `xyz` whose one database record has no id and an
auth block with the id `authId`. -/
def authRecordWith (authId : JVal) : ConnectionConfig :=
  { id := .str "xyz", name := .str "n4", host := .str "h4", port := .num 27021
    databases := some
      [{ id := .undefined, name := .str "d0", host := .undefined, port := .undefined,
         auth := some { id := authId, username := .str "user", password := .str "pw" } }] }

/-- The record that `create(optionsP3)` appends when the id drawn for it is
`uuu`. -/
def recordP3 : ConnectionConfig :=
  { id := .str "uuu", name := .str "a", host := .str "h", port := .num 1
    databases := some
      [{ id := .undefined, name := .str "d", host := .undefined, port := .undefined,
         auth := none }] }

/-- A file state whose read fails with a parse error other than the
tolerated one. -/
def malformedFile : FileState :=
  .unreadable { code := "SyntaxError", message := some "Unexpected token ] in JSON" }

/-- A stored record with id `abc` whose database record has the id `d1` and
an auth block with the id `a1`. -/
def recordWithAuth : ConnectionConfig :=
  { id := .str "abc", name := .str "n0", host := .str "h0", port := .num 27017
    databases := some
      [{ id := .str "d1", name := .str "d0", host := .undefined, port := .undefined,
         auth := some { id := .str "a1", username := .str "user", password := .str "pw" } }] }

/-- A stored database record without id, with an auth block of id `a1`. -/
def databaseRecordNoId : DatabaseConfig :=
  { id := .undefined, name := .str "d0", host := .undefined, port := .undefined,
    auth := some { id := .str "a1", username := .str "user", password := .str "pw" } }

/-! ## The mapper, step by step -/

theorem orUuid_truthy (g : IdGen) (v : JVal) (n : Nat) : (orUuid g v n).1.truthy = true := by
  unfold orUuid
  split
  · assumption
  · simpa [uuid_v4, JVal.truthy] using g.nonempty n

theorem orUuid_of_truthy (g : IdGen) (v : JVal) (n : Nat) (h : v.truthy = true) :
    orUuid g v n = (v, n) := by
  simp [orUuid, h]

theorem mapSt_length {α β : Type} (f : α → Nat → β × Nat) (xs : List α) (n : Nat) :
    (mapSt f xs n).1.length = xs.length := by
  induction xs generalizing n with
  | nil => rfl
  | cons x xs ih => simp [mapSt, ih]

theorem mapSt_forall₂ {α β : Type} (f : α → Nat → β × Nat) (R : α → β → Prop)
    (xs : List α) (h : ∀ x ∈ xs, ∀ n, R x (f x n).1) (n : Nat) :
    List.Forall₂ R xs (mapSt f xs n).1 := by
  induction xs generalizing n with
  | nil => exact List.Forall₂.nil
  | cons x xs ih =>
    simp only [mapSt]
    exact List.Forall₂.cons (h x (List.mem_cons_self x xs) n)
      (ih (fun y hy => h y (List.mem_cons_of_mem x hy)) _)

theorem mapSt_append {α β : Type} (f : α → Nat → β × Nat) (xs ys : List α) (n : Nat) :
    mapSt f (xs ++ ys) n =
      ((mapSt f xs n).1 ++ (mapSt f ys (mapSt f xs n).2).1, (mapSt f ys (mapSt f xs n).2).2) := by
  induction xs generalizing n with
  | nil => simp [mapSt]
  | cons x xs ih => simp [mapSt, ih]

theorem eachDatabase_eq (g : IdGen) (cc : ConnectionConfig) (dbs : List DatabaseConfig)
    (conn : Connection) (n : Nat) :
    eachDatabase g cc dbs conn n =
      ({ conn with databases := conn.databases ++ (mapSt (databaseFromConfig g cc) dbs n).1 },
       (mapSt (databaseFromConfig g cc) dbs n).2) := by
  induction dbs generalizing conn n with
  | nil => simp [eachDatabase, mapSt]
  | cons d dbs ih => simp [eachDatabase, mapSt, ih, Connection.addDatabase]

theorem fromConfig_one (g : IdGen) (cc : ConnectionConfig) (n : Nat) :
    (generateConnectionInstanceFromConfig g cc n).1 =
      { id := (orUuid g cc.id n).1
        name := cc.name
        host := cc.host
        port := cc.port
        databases :=
          (mapSt (databaseFromConfig g cc) (cc.databases.getD []) (orUuid g cc.id n).2).1 } := by
  simp [generateConnectionInstanceFromConfig, eachDatabase_eq, Connection.new]

/-! ## The operations, step by step -/

theorem readConfigFile_snd (w : World) :
    (readConfigFile w).2 = { w with reads := w.reads + 1 } := by
  unfold readConfigFile
  dsimp only
  cases (jsonfile.readFile w.file).1 with
  | none => rfl
  | some err => dsimp only; split <;> rfl

theorem readConfigFile_file (w w0 : World) (h : w0.file = w.file) :
    (readConfigFile w0).1 = (readConfigFile w).1 := by
  unfold readConfigFile
  dsimp only
  rw [h]
  cases (jsonfile.readFile w.file).1 with
  | none => rfl
  | some err => dsimp only; split <;> rfl

theorem readConfigFile_json (w : World) (data : Option (List ConnectionConfig))
    (h : w.file = .json data) : (readConfigFile w).1 = .ok (data.getD []) := by
  simp [readConfigFile, h, jsonfile.readFile]

theorem list_of_read_ok (g : IdGen) (w : World) (rs : List ConnectionConfig)
    (h : (readConfigFile w).1 = .ok rs) :
    list g w =
      (.ok (generateConnectionInstancesFromConfig g rs w.uuid).1,
       { w with
         reads := w.reads + 1
         uuid := (generateConnectionInstancesFromConfig g rs w.uuid).2 }) := by
  have h2 := readConfigFile_snd w
  unfold list
  rcases hr : readConfigFile w with ⟨r, w1⟩
  rw [hr] at h h2
  simp only at h h2
  subst h h2
  rfl

theorem list_of_read_error (g : IdGen) (w : World) (e : OpError)
    (h : (readConfigFile w).1 = .error e) :
    list g w = (.error e, { w with reads := w.reads + 1 }) := by
  have h2 := readConfigFile_snd w
  unfold list
  rcases hr : readConfigFile w with ⟨r, w1⟩
  rw [hr] at h h2
  simp only at h h2
  subst h h2
  rfl

theorem writeConfigFile_ok (data : List ConnectionConfig) (w : World)
    (h : w.writeFault = none) :
    writeConfigFile data w =
      (.ok (), { w with writes := w.writes + 1, file := .json (some data) }) := by
  simp [writeConfigFile, h]

theorem writeConfigFile_fault (data : List ConnectionConfig) (w : World) (e : JsError)
    (h : w.writeFault = some e) :
    writeConfigFile data w = (.error (.storage e), { w with writes := w.writes + 1 }) := by
  simp [writeConfigFile, h]

/-- The closed form of a `create` whose read and write both go through. -/
theorem create_of_read_ok (g : IdGen) (o : Options) (w : World) (rs : List ConnectionConfig)
    (hread : (readConfigFile w).1 = .ok rs) (hfault : w.writeFault = none) :
    create g (some o) w =
      (.ok (createConnection g { o with id := .str (g.draw w.uuid) }
              (generateConnectionInstancesFromConfig g rs (w.uuid + 1)).2).1,
       { file := .json (some (convertConnectionInstancesIntoConfig g
            ((generateConnectionInstancesFromConfig g rs (w.uuid + 1)).1 ++
              [(createConnection g { o with id := .str (g.draw w.uuid) }
                (generateConnectionInstancesFromConfig g rs (w.uuid + 1)).2).1])
            ((generateConnectionInstancesFromConfig g rs (w.uuid + 1)).2 + 1)).1)
         uuid := (convertConnectionInstancesIntoConfig g
            ((generateConnectionInstancesFromConfig g rs (w.uuid + 1)).1 ++
              [(createConnection g { o with id := .str (g.draw w.uuid) }
                (generateConnectionInstancesFromConfig g rs (w.uuid + 1)).2).1])
            ((generateConnectionInstancesFromConfig g rs (w.uuid + 1)).2 + 1)).2
         writeFault := none
         reads := w.reads + 1
         writes := w.writes + 1 }) := by
  have h1 : (readConfigFile { w with uuid := w.uuid + 1 }).1 = .ok rs :=
    (readConfigFile_file w { w with uuid := w.uuid + 1 } rfl).trans hread
  unfold create
  simp only [uuid_v4]
  rw [list_of_read_ok g _ rs h1]
  simp [createConnection, uuid_v4, writeConfigFile, hfault]

/-- A `create` that resolves has read the file and met no write fault. -/
theorem create_ok_inv (g : IdGen) (o : Options) (w w1 : World) (c : Connection)
    (hc : create g (some o) w = (.ok c, w1)) :
    (∃ rs, (readConfigFile w).1 = .ok rs) ∧ w.writeFault = none := by
  have hfile : ∀ u, (readConfigFile { w with uuid := u }).1 = (readConfigFile w).1 :=
    fun u => readConfigFile_file w { w with uuid := u } rfl
  cases hr : (readConfigFile w).1 with
  | error e =>
    exfalso
    unfold create at hc
    simp only [uuid_v4] at hc
    rw [list_of_read_error g _ e ((hfile _).trans hr)] at hc
    simp at hc
  | ok rs =>
    refine ⟨⟨rs, rfl⟩, ?_⟩
    cases hf : w.writeFault with
    | none => rfl
    | some e =>
      exfalso
      unfold create at hc
      simp only [uuid_v4] at hc
      rw [list_of_read_ok g _ rs ((hfile _).trans hr)] at hc
      simp [writeConfigFile, hf] at hc

/-! ## One record through the mapper and back -/

theorem mapSt_map {α β γ : Type} (f : α → Nat → β × Nat) (p : β → γ) (q : α → γ)
    (h : ∀ x n, p (f x n).1 = q x) (xs : List α) (n : Nat) :
    (mapSt f xs n).1.map p = xs.map q := by
  induction xs generalizing n with
  | nil => rfl
  | cons x xs ih => simp [mapSt, ih, h]

theorem mapSt_mapSt_forall₂ {α β γ : Type} (f : α → Nat → β × Nat) (h : β → Nat → γ × Nat)
    (R : α → γ → Prop) (hR : ∀ x n k, R x (h (f x n).1 k).1) (xs : List α) (n k : Nat) :
    List.Forall₂ R xs (mapSt h (mapSt f xs n).1 k).1 := by
  induction xs generalizing n k with
  | nil => exact List.Forall₂.nil
  | cons x xs ih =>
    simp only [mapSt]
    exact List.Forall₂.cons (hR x n k) (ih _ _)

theorem convertDatabase_name (g : IdGen) (d : Database) (n : Nat) :
    (convertDatabase g d n).1.name = d.name := by
  unfold convertDatabase
  split <;> rfl

theorem databaseFromConfig_name (g : IdGen) (cc : ConnectionConfig) (d : DatabaseConfig)
    (n : Nat) : (databaseFromConfig g cc d n).1.name = d.name := rfl

theorem fromConfig_one_id_truthy (g : IdGen) (cc : ConnectionConfig) (n : Nat) :
    (generateConnectionInstanceFromConfig g cc n).1.id.truthy = true := by
  rw [fromConfig_one]
  exact orUuid_truthy g cc.id n

theorem toConfig_one_id (g : IdGen) (c : Connection) (n : Nat) (h : c.id.truthy = true) :
    (convertConnectionInstanceIntoConfig g c n).1.id = c.id := by
  simp [convertConnectionInstanceIntoConfig, orUuid_of_truthy g c.id n h]

theorem toConfig_one_databaseNames (g : IdGen) (c : Connection) (n : Nat) :
    (convertConnectionInstanceIntoConfig g c n).1.databaseNames = c.databaseNames := by
  simp only [convertConnectionInstanceIntoConfig, ConnectionConfig.databaseNames,
    Connection.databaseNames, Option.getD_some]
  exact mapSt_map _ _ _ (convertDatabase_name g) _ _

theorem fromConfig_one_databaseNames (g : IdGen) (cc : ConnectionConfig) (n : Nat) :
    (generateConnectionInstanceFromConfig g cc n).1.databaseNames = cc.databaseNames := by
  rw [fromConfig_one]
  simp only [ConnectionConfig.databaseNames, Connection.databaseNames]
  exact mapSt_map _ _ _ (databaseFromConfig_name g cc) _ _

/-- A stored record that is loaded and written back keeps name, host, port,
database names and a truthy id. -/
theorem rewrite_keptIn (g : IdGen) (r : ConnectionConfig) (n k : Nat) :
    r.keptIn (convertConnectionInstanceIntoConfig g
      (generateConnectionInstanceFromConfig g r n).1 k).1 := by
  refine ⟨?_, ?_, ?_, ?_, ?_⟩
  · simp [convertConnectionInstanceIntoConfig, fromConfig_one]
  · simp [convertConnectionInstanceIntoConfig, fromConfig_one]
  · simp [convertConnectionInstanceIntoConfig, fromConfig_one]
  · rw [toConfig_one_databaseNames, fromConfig_one_databaseNames]
  · intro h
    rw [toConfig_one_id g _ k (fromConfig_one_id_truthy g r n), fromConfig_one,
      orUuid_of_truthy g r.id n h]

/-! ## Removing a connection, deleting -/

theorem mapSt_mem {α β : Type} (f : α → Nat → β × Nat) (xs : List α) (n : Nat) (y : β)
    (h : y ∈ (mapSt f xs n).1) : ∃ x ∈ xs, ∃ k, y = (f x k).1 := by
  induction xs generalizing n with
  | nil => simp [mapSt] at h
  | cons x xs ih =>
    simp only [mapSt, List.mem_cons] at h
    rcases h with h | h
    · exact ⟨x, List.mem_cons_self x xs, n, h⟩
    · obtain ⟨x1, hx1, k, hk⟩ := ih _ h
      exact ⟨x1, List.mem_cons_of_mem x hx1, k, hk⟩

theorem removeConnection_of_split (id : JVal) (as bs : List Connection) (b : Connection)
    (hb : b.id = id) (has : ∀ a ∈ as, a.id ≠ id) :
    removeConnection id (as ++ b :: bs) = .ok (as ++ bs) := by
  have hfind : (as ++ b :: bs).find? (fun c => c.id == id) = some b := by
    rw [List.find?_eq_some]
    refine ⟨by simp [hb], as, bs, rfl, ?_⟩
    intro a ha
    simpa using has a ha
  have hnot : b ∉ as := fun hmem => has b hmem hb
  unfold removeConnection
  rw [hfind]
  simp only [List.eraseIdx_indexOf_eq_erase]
  rw [List.erase_append_right _ hnot, List.erase_cons_head]

theorem removeConnection_not_found (id : JVal) (cs : List Connection)
    (h : ∀ c ∈ cs, c.id ≠ id) :
    removeConnection id cs = .error (.error "Connection not found") := by
  have hfind : cs.find? (fun c => c.id == id) = none := by
    rw [List.find?_eq_none]
    intro c hc
    simpa using h c hc
  unfold removeConnection
  rw [hfind]

theorem delete_of_not_found (g : IdGen) (id : JVal) (w : World) (rs : List ConnectionConfig)
    (hread : (readConfigFile w).1 = .ok rs)
    (h : ∀ c ∈ (generateConnectionInstancesFromConfig g rs w.uuid).1, c.id ≠ id) :
    delete g id w =
      (.error (.error "Connection not found"),
       { w with
         reads := w.reads + 1
         uuid := (generateConnectionInstancesFromConfig g rs w.uuid).2 }) := by
  unfold delete
  rw [list_of_read_ok g w rs hread]
  simp only
  rw [removeConnection_not_found id _ h]

theorem delete_of_removed (g : IdGen) (id : JVal) (w : World) (rs : List ConnectionConfig)
    (remaining : List Connection)
    (hread : (readConfigFile w).1 = .ok rs) (hfault : w.writeFault = none)
    (h : removeConnection id (generateConnectionInstancesFromConfig g rs w.uuid).1 =
      .ok remaining) :
    delete g id w =
      (.ok (),
       { file := .json (some (convertConnectionInstancesIntoConfig g remaining
            (generateConnectionInstancesFromConfig g rs w.uuid).2).1)
         uuid := (convertConnectionInstancesIntoConfig g remaining
            (generateConnectionInstancesFromConfig g rs w.uuid).2).2
         writeFault := none
         reads := w.reads + 1
         writes := w.writes + 1 }) := by
  unfold delete
  rw [list_of_read_ok g w rs hread]
  simp only
  rw [h]
  simp [writeConfigFile, hfault]

theorem forall₂_eraseIdx {α β : Type} (R : α → β → Prop) (xs : List α) (ys : List β)
    (h : List.Forall₂ R xs ys) (i : Nat) :
    List.Forall₂ R (xs.eraseIdx i) (ys.eraseIdx i) := by
  induction h generalizing i with
  | nil => exact List.Forall₂.nil
  | cons hxy hrest ih =>
    cases i with
    | zero => exact hrest
    | succ i => exact List.Forall₂.cons hxy (ih i)

theorem forall₂_chain {α β γ : Type} (R : α → β → Prop) (S : β → γ → Prop)
    (T : α → γ → Prop) (hT : ∀ a b c, R a b → S b c → T a c) (xs : List α) (ys : List β)
    (zs : List γ) (h1 : List.Forall₂ R xs ys) (h2 : List.Forall₂ S ys zs) :
    List.Forall₂ T xs zs := by
  induction h1 generalizing zs with
  | nil =>
    cases h2
    exact List.Forall₂.nil
  | cons hxy _ ih =>
    cases h2 with
    | cons hyz hrest => exact List.Forall₂.cons (hT _ _ _ hxy hyz) (ih _ hrest)

theorem removeConnection_ok_inv (id : JVal) (cs remaining : List Connection)
    (h : removeConnection id cs = .ok remaining) :
    ∃ i, i < cs.length ∧ remaining = cs.eraseIdx i := by
  unfold removeConnection at h
  split at h
  · rename_i found hfind
    simp only [Except.ok.injEq] at h
    refine ⟨cs.indexOf found, ?_, h.symm⟩
    exact List.indexOf_lt_length.mpr (List.mem_of_find?_eq_some hfind)
  · simp at h

/-- A `delete` that resolves has read the file, found the connection and met
no write fault. -/
theorem delete_ok_inv (g : IdGen) (id : JVal) (w w1 : World)
    (hd : delete g id w = (.ok (), w1)) :
    ∃ rs remaining, (readConfigFile w).1 = .ok rs ∧ w.writeFault = none ∧
      removeConnection id (generateConnectionInstancesFromConfig g rs w.uuid).1 =
        .ok remaining := by
  cases hr : (readConfigFile w).1 with
  | error e =>
    exfalso
    unfold delete at hd
    rw [list_of_read_error g w e hr] at hd
    simp at hd
  | ok rs =>
    cases hrem : removeConnection id (generateConnectionInstancesFromConfig g rs w.uuid).1 with
    | error e =>
      exfalso
      unfold delete at hd
      rw [list_of_read_ok g w rs hr] at hd
      simp only at hd
      rw [hrem] at hd
      simp at hd
    | ok remaining =>
      refine ⟨rs, remaining, rfl, ?_, hrem⟩
      cases hf : w.writeFault with
      | none => rfl
      | some e =>
        exfalso
        unfold delete at hd
        rw [list_of_read_ok g w rs hr] at hd
        simp only at hd
        rw [hrem] at hd
        simp [writeConfigFile, hf] at hd

theorem toConfig_ids_truthy (g : IdGen) (cs : List Connection) (n : Nat) :
    ∀ r ∈ (convertConnectionInstancesIntoConfig g cs n).1, r.id.truthy = true := by
  intro r hr
  obtain ⟨c, -, k, rfl⟩ := mapSt_mem _ _ _ _ hr
  exact orUuid_truthy g c.id k

/-! ## Two loads of one file -/

theorem mapSt_getElem? {α β : Type} (f : α → Nat → β × Nat) (xs : List α) (n i : Nat)
    (x : α) (y : β) (hx : xs[i]? = some x) (hy : (mapSt f xs n).1[i]? = some y) :
    ∃ k, y = (f x k).1 := by
  induction xs generalizing n i with
  | nil => simp at hx
  | cons a xs ih =>
    cases i with
    | zero =>
      simp only [mapSt, List.getElem?_cons_zero, Option.some.injEq] at hx hy
      exact ⟨n, by rw [← hx, ← hy]⟩
    | succ i =>
      simp only [mapSt, List.getElem?_cons_succ] at hx hy
      exact ih _ i hx hy

theorem databaseFromConfig_loadsAgree (g : IdGen) (cc : ConnectionConfig)
    (rd : DatabaseConfig) (k1 k2 : Nat) :
    rd.loadsAgree (databaseFromConfig g cc rd k1).1 (databaseFromConfig g cc rd k2).1 := by
  refine ⟨rfl, rfl, rfl, rfl, ?_⟩
  intro h
  simp [databaseFromConfig, orUuid_of_truthy g rd.id _ h]

theorem fromConfig_one_loadsAgree (g : IdGen) (r : ConnectionConfig) (k1 k2 : Nat) :
    r.loadsAgree (generateConnectionInstanceFromConfig g r k1).1
      (generateConnectionInstanceFromConfig g r k2).1 := by
  rw [fromConfig_one, fromConfig_one]
  refine ⟨rfl, rfl, rfl, ?_, mapSt_length _ _ _, mapSt_length _ _ _, ?_⟩
  · intro h
    simp [orUuid_of_truthy g r.id _ h]
  · intro j rd d1 d2 hrd h1 h2
    obtain ⟨m1, rfl⟩ := mapSt_getElem? _ _ _ _ _ _ hrd h1
    obtain ⟨m2, rfl⟩ := mapSt_getElem? _ _ _ _ _ _ hrd h2
    exact databaseFromConfig_loadsAgree g r rd m1 m2

/-! ## Create, then delete -/

theorem mapSt_map_of_mem {α β γ : Type} (f : α → Nat → β × Nat) (p : β → γ) (q : α → γ)
    (xs : List α) (h : ∀ x ∈ xs, ∀ n, p (f x n).1 = q x) (n : Nat) :
    (mapSt f xs n).1.map p = xs.map q := by
  induction xs generalizing n with
  | nil => rfl
  | cons x xs ih =>
    simp only [mapSt, List.map_cons]
    rw [h x (List.mem_cons_self x xs) n, ih (fun y hy => h y (List.mem_cons_of_mem x hy))]

theorem toConfig_one_core (g : IdGen) (c : Connection) (n : Nat) (h : c.id.truthy = true) :
    (convertConnectionInstanceIntoConfig g c n).1.core = c.core := by
  unfold ConnectionConfig.core Connection.core
  rw [toConfig_one_id g c n h, toConfig_one_databaseNames]
  rfl

theorem fromConfig_one_core (g : IdGen) (r : ConnectionConfig) (n : Nat)
    (h : r.id.truthy = true) :
    (generateConnectionInstanceFromConfig g r n).1.core = r.core := by
  unfold ConnectionConfig.core Connection.core
  rw [fromConfig_one_databaseNames, fromConfig_one, orUuid_of_truthy g r.id n h]

theorem toConfig_core (g : IdGen) (cs : List Connection) (n : Nat)
    (h : ∀ c ∈ cs, c.id.truthy = true) :
    (convertConnectionInstancesIntoConfig g cs n).1.map ConnectionConfig.core =
      cs.map Connection.core :=
  mapSt_map_of_mem _ _ _ cs (fun c hc k => toConfig_one_core g c k (h c hc)) n

theorem fromConfig_core (g : IdGen) (rs : List ConnectionConfig) (n : Nat)
    (h : ∀ r ∈ rs, r.id.truthy = true) :
    (generateConnectionInstancesFromConfig g rs n).1.map Connection.core =
      rs.map ConnectionConfig.core :=
  mapSt_map_of_mem _ _ _ rs (fun r hr k => fromConfig_one_core g r k (h r hr)) n

theorem fromConfig_ids_truthy (g : IdGen) (rs : List ConnectionConfig) (n : Nat) :
    ∀ c ∈ (generateConnectionInstancesFromConfig g rs n).1, c.id.truthy = true := by
  intro c hc
  obtain ⟨r, -, k, rfl⟩ := mapSt_mem _ _ _ _ hc
  exact fromConfig_one_id_truthy g r k

theorem fromConfig_one_loadedAs (g : IdGen) (r : ConnectionConfig) (n : Nat) :
    r.loadedAs (generateConnectionInstanceFromConfig g r n).1 := by
  refine ⟨?_, ?_, ?_, fromConfig_one_databaseNames g r n, ?_⟩
  · rw [fromConfig_one]
  · rw [fromConfig_one]
  · rw [fromConfig_one]
  · intro h
    rw [fromConfig_one, orUuid_of_truthy g r.id n h]

theorem loadedAs_of_core_eq (r : ConnectionConfig) (c c1 : Connection)
    (h : c.core = c1.core) (hc : r.loadedAs c) : r.loadedAs c1 := by
  simp only [Connection.core, Prod.mk.injEq] at h
  obtain ⟨h1, h2, h3, h4, h5⟩ := h
  obtain ⟨k1, k2, k3, k4, k5⟩ := hc
  exact ⟨h2 ▸ k1, h3 ▸ k2, h4 ▸ k3, h5 ▸ k4, fun ht => h1 ▸ k5 ht⟩

theorem forall₂_of_map_eq {α β γ : Type} (R : α → β → Prop) (f : β → γ)
    (hR : ∀ x y z, f y = f z → R x y → R x z) (xs : List α) (ys zs : List β)
    (h : List.Forall₂ R xs ys) (hmap : ys.map f = zs.map f) : List.Forall₂ R xs zs := by
  induction h generalizing zs with
  | nil =>
    cases zs with
    | nil => exact List.Forall₂.nil
    | cons z zs => simp at hmap
  | cons hxy _ ih =>
    cases zs with
    | nil => simp at hmap
    | cons z zs =>
      simp only [List.map_cons, List.cons.injEq] at hmap
      exact List.Forall₂.cons (hR _ _ _ hmap.1 hxy) (ih zs hmap.2)

/-! ## A read that fails -/

theorem readConfigFile_of_error (w : World) (e : JsError)
    (he : (jsonfile.readFile w.file).1 = some e)
    (hm : e.message ≠ some "Unexpected end of input") :
    (readConfigFile w).1 = .error (.storage e) := by
  unfold readConfigFile
  simp [he, hm]

theorem readConfigFile_of_tolerated (w : World)
    (h : ∀ e, (jsonfile.readFile w.file).1 = some e →
      e.message = some "Unexpected end of input") :
    (readConfigFile w).1 = .ok ((jsonfile.readFile w.file).2.getD []) := by
  unfold readConfigFile
  cases he : (jsonfile.readFile w.file).1 with
  | none => simp [he]
  | some e => simp [he, h e he]

theorem create_of_read_error (g : IdGen) (o : Options) (w : World) (e : OpError)
    (h : (readConfigFile w).1 = .error e) :
    create g (some o) w = (.error e, { w with uuid := w.uuid + 1, reads := w.reads + 1 }) := by
  have h1 : (readConfigFile { w with uuid := w.uuid + 1 }).1 = .error e :=
    (readConfigFile_file w { w with uuid := w.uuid + 1 } rfl).trans h
  unfold create
  simp only [uuid_v4]
  rw [list_of_read_error g _ e h1]

theorem delete_of_read_error (g : IdGen) (id : JVal) (w : World) (e : OpError)
    (h : (readConfigFile w).1 = .error e) :
    delete g id w = (.error e, { w with reads := w.reads + 1 }) := by
  unfold delete
  rw [list_of_read_error g w e h]

/-! ## Ids through the mapper -/

theorem toConfig_ids (g : IdGen) (cs : List Connection) (n : Nat)
    (h : ∀ c ∈ cs, c.id.truthy = true) :
    (convertConnectionInstancesIntoConfig g cs n).1.map (fun r => r.id) =
      cs.map (fun c => c.id) :=
  mapSt_map_of_mem _ _ _ cs (fun c hc k => toConfig_one_id g c k (h c hc)) n

theorem fromConfig_ids (g : IdGen) (rs : List ConnectionConfig) (n : Nat)
    (h : ∀ r ∈ rs, r.id.truthy = true) :
    (generateConnectionInstancesFromConfig g rs n).1.map (fun c => c.id) =
      rs.map (fun r => r.id) :=
  mapSt_map_of_mem _ _ _ rs
    (fun r hr k => by
      show (generateConnectionInstanceFromConfig g r k).1.id = r.id
      rw [fromConfig_one, orUuid_of_truthy g r.id k (h r hr)]) n

/-! ## What the mapper builds -/

theorem mapSt_snd {α β : Type} (f : α → Nat → β × Nat) (cost : α → Nat)
    (h : ∀ x n, (f x n).2 = n + cost x) (xs : List α) (n : Nat) :
    (mapSt f xs n).2 = n + (xs.map cost).sum := by
  induction xs generalizing n with
  | nil => simp [mapSt]
  | cons x xs ih =>
    simp only [mapSt, List.map_cons, List.sum_cons]
    rw [ih, h]
    omega

theorem orUuid_snd (g : IdGen) (v : JVal) (n : Nat) :
    (orUuid g v n).2 = n + (if v.truthy then 0 else 1) := by
  unfold orUuid
  split <;> simp [uuid_v4]

theorem orUuid_of_falsy (g : IdGen) (v : JVal) (n : Nat) (h : v.truthy = false) :
    (orUuid g v n).1 = .str (g.draw n) := by
  simp [orUuid, h, uuid_v4]

theorem databaseFromConfig_builds (g : IdGen) (r : ConnectionConfig) (rd : DatabaseConfig)
    (n : Nat) : rd.builds g r (databaseFromConfig g r rd n).1 := by
  refine ⟨rfl, rfl, rfl, rfl, ?_, ?_⟩
  · intro h
    simp [databaseFromConfig, orUuid_of_truthy g rd.id n h]
  · intro h
    exact ⟨n, orUuid_of_falsy g rd.id n h⟩

theorem fromConfig_one_builds (g : IdGen) (r : ConnectionConfig) (n : Nat) :
    r.builds g (generateConnectionInstanceFromConfig g r n).1 := by
  rw [fromConfig_one]
  refine ⟨rfl, rfl, rfl, ?_, ?_, mapSt_length _ _ _, ?_⟩
  · intro h
    simp [orUuid_of_truthy g r.id n h]
  · intro h
    exact ⟨n, orUuid_of_falsy g r.id n h⟩
  · intro j rd d hrd hd
    obtain ⟨m, rfl⟩ := mapSt_getElem? _ _ _ _ _ _ hrd hd
    exact databaseFromConfig_builds g r rd m

theorem fromConfig_one_snd (g : IdGen) (r : ConnectionConfig) (n : Nat) :
    (generateConnectionInstanceFromConfig g r n).2 = n + r.missingIds := by
  unfold generateConnectionInstanceFromConfig ConnectionConfig.missingIds
  simp only [eachDatabase_eq]
  rw [mapSt_snd (databaseFromConfig g r) (fun d => if d.id.truthy then 0 else 1)
    (fun d k => orUuid_snd g d.id k), orUuid_snd]
  omega

/-! ## A record that is loaded and written back -/

theorem mapSt_getElem?_some {α β : Type} (f : α → Nat → β × Nat) (xs : List α) (n i : Nat)
    (x : α) (hx : xs[i]? = some x) : ∃ k, (mapSt f xs n).1[i]? = some (f x k).1 := by
  induction xs generalizing n i with
  | nil => simp at hx
  | cons a xs ih =>
    cases i with
    | zero =>
      simp only [List.getElem?_cons_zero, Option.some.injEq] at hx
      exact ⟨n, by simp [mapSt, hx]⟩
    | succ i =>
      simp only [List.getElem?_cons_succ] at hx
      obtain ⟨k, hk⟩ := ih (f a n).2 i hx
      exact ⟨k, by simpa [mapSt] using hk⟩

theorem databaseFromConfig_id_truthy (g : IdGen) (r : ConnectionConfig) (rd : DatabaseConfig)
    (n : Nat) : (databaseFromConfig g r rd n).1.id.truthy = true :=
  orUuid_truthy g rd.id n

theorem convertDatabase_of_auth (g : IdGen) (d : Database) (a : Auth) (k : Nat)
    (ha : d.auth = some a) (hid : d.id.truthy = true) :
    convertDatabase g d k =
      ({ id := .undefined, name := d.name, host := .undefined, port := .undefined,
         auth := some { id := d.id, username := a.username, password := a.password } }, k) := by
  unfold convertDatabase
  simp [ha, orUuid_of_truthy g d.id k hid]

theorem convertDatabase_of_no_auth (g : IdGen) (d : Database) (k : Nat) (ha : d.auth = none) :
    convertDatabase g d k =
      ({ id := .undefined, name := d.name, host := .undefined, port := .undefined,
         auth := none }, k) := by
  unfold convertDatabase
  simp [ha]

theorem database_rewrittenAs (g : IdGen) (r : ConnectionConfig) (rd : DatabaseConfig)
    (n k : Nat) : rd.rewrittenAs (convertDatabase g (databaseFromConfig g r rd n).1 k).1 := by
  refine ⟨convertDatabase_name g _ k, ?_, ?_⟩
  · intro h
    rw [convertDatabase_of_no_auth g _ k h]
  · intro a h
    rw [convertDatabase_of_auth g _ a k h (databaseFromConfig_id_truthy g r rd n)]
    exact ⟨_, rfl, rfl, rfl⟩

theorem record_rewrittenAs (g : IdGen) (r : ConnectionConfig) (dbs : List DatabaseConfig)
    (n k : Nat) (hid : r.id.truthy = true) (hdbs : r.databases = some dbs) :
    r.rewrittenAs
      (convertConnectionInstanceIntoConfig g (generateConnectionInstanceFromConfig g r n).1 k).1 := by
  have hk := rewrite_keptIn g r n k
  refine ⟨hk.2.2.2.2 hid, hk.1, hk.2.1, hk.2.2.1, dbs, _, hdbs, rfl, ?_, ?_⟩
  · rw [fromConfig_one]
    simp [mapSt_length, hdbs]
  · rw [fromConfig_one]
    simp only [hdbs, Option.getD_some]
    exact mapSt_mapSt_forall₂ _ _ _ (database_rewrittenAs g r) dbs _ _

/-! ## Deleting the one connection that has the id -/

theorem forall₂_countP {α β : Type} (p : α → Bool) (q : β → Bool) (xs : List α)
    (ys : List β) (h : List.Forall₂ (fun a b => p a = q b) xs ys) :
    xs.countP p = ys.countP q := by
  induction h with
  | nil => rfl
  | cons hab _ ih => simp only [List.countP_cons, hab, ih]

theorem removeConnection_of_count_one (id : JVal) (cs : List Connection)
    (h : cs.countP (fun c => c.id == id) = 1) :
    ∃ remaining, removeConnection id cs = .ok remaining ∧
      remaining.length + 1 = cs.length ∧
      (∀ a ∈ remaining, a ∈ cs) ∧ ∀ a ∈ remaining, a.id ≠ id := by
  have hpos : 0 < cs.countP (fun c => c.id == id) := by omega
  obtain ⟨c, hc, hcid⟩ := List.countP_pos_iff.mp hpos
  have hsome : (cs.find? (fun c => c.id == id)).isSome = true := by
    rw [List.find?_isSome]
    exact ⟨c, hc, hcid⟩
  obtain ⟨found, hfound⟩ := Option.isSome_iff_exists.mp hsome
  obtain ⟨hp, before, after, hsplit, hbefore⟩ := List.find?_eq_some.mp hfound
  have hfid : found.id = id := by simpa using hp
  have hne : ∀ a ∈ before, a.id ≠ id := by
    intro a ha
    simpa using hbefore a ha
  subst hsplit
  simp only [List.countP_append, List.countP_cons, hp, if_true] at h
  have hafter : ∀ a ∈ after, a.id ≠ id := by
    have h0 : after.countP (fun c => c.id == id) = 0 := by omega
    intro a ha
    simpa using (List.countP_eq_zero.mp h0) a ha
  refine ⟨before ++ after, removeConnection_of_split id before after found hfid hne, ?_, ?_, ?_⟩
  · simp only [List.length_append, List.length_cons]
    omega
  · intro a ha
    rcases List.mem_append.mp ha with ha | ha
    · exact List.mem_append_left _ ha
    · exact List.mem_append_right _ (List.mem_cons_of_mem _ ha)
  · intro a ha
    rcases List.mem_append.mp ha with ha | ha
    · exact hne a ha
    · exact hafter a ha

theorem ne_of_map_eq {α β γ : Type} (f : α → γ) (f1 : β → γ) (X : γ) (xs : List α)
    (ys : List β) (hmap : xs.map f = ys.map f1) (h : ∀ y ∈ ys, f1 y ≠ X) :
    ∀ x ∈ xs, f x ≠ X := by
  intro x hx hEq
  have hmem : f x ∈ ys.map f1 := by
    rw [← hmap]; exact List.mem_map_of_mem f hx
  obtain ⟨y, hy, hfy⟩ := List.mem_map.mp hmem
  exact h y hy (hfy.trans hEq)

/-! ## Claims -/

/-- C1: a successful `create(options)` on a store of `N` records writes
`N + 1` records: the records written for the `N` loaded connections, in their
order (each keeping name, host, port, database names and a truthy id of the
stored record), followed by the new record.  The id of the new record is the
id drawn at the start of the call whatever `options.id` was, and the new
connection has exactly one database, named `options.databaseName`, with host
and port `options.host` and `options.port`. -/
theorem create_appends_new_record (g : IdGen) (o : Options) (w w1 : World)
    (rs : List ConnectionConfig) (c : Connection) (x : JVal)
    (hread : (readConfigFile w).1 = .ok rs)
    (hc : create g (some o) w = (.ok c, w1)) :
    ∃ (old : List ConnectionConfig) (added : ConnectionConfig) (nd : DatabaseConfig)
      (d : Database),
      w1.file = .json (some (old ++ [added])) ∧
      (old ++ [added]).length = rs.length + 1 ∧
      old = (convertConnectionInstancesIntoConfig g
              (generateConnectionInstancesFromConfig g rs (w.uuid + 1)).1
              ((generateConnectionInstancesFromConfig g rs (w.uuid + 1)).2 + 1)).1 ∧
      List.Forall₂ ConnectionConfig.keptIn rs old ∧
      added.id = .str (g.draw w.uuid) ∧ added.name = o.name ∧
      added.host = o.host ∧ added.port = o.port ∧
      added.databases = some [nd] ∧ nd.name = o.databaseName ∧
      c.id = added.id ∧ c.name = o.name ∧ c.host = o.host ∧ c.port = o.port ∧
      c.databases = [d] ∧ d.name = o.databaseName ∧ d.host = o.host ∧ d.port = o.port ∧
      create g (some { o with id := x }) w = create g (some o) w := by
  obtain ⟨-, hf⟩ := create_ok_inv g o w w1 c hc
  rw [create_of_read_ok g o w rs hread hf] at hc
  simp only [Prod.mk.injEq, Except.ok.injEq] at hc
  obtain ⟨hc1, hw1⟩ := hc
  subst hc1 hw1
  have hid : (JVal.str (g.draw w.uuid)).truthy = true := by
    simpa [JVal.truthy] using g.nonempty w.uuid
  generalize hl : generateConnectionInstancesFromConfig g rs (w.uuid + 1) = loaded
  have hlen : loaded.1.length = rs.length := by
    rw [← hl]; exact mapSt_length _ _ _
  have hkept : List.Forall₂ ConnectionConfig.keptIn rs
      (convertConnectionInstancesIntoConfig g loaded.1 (loaded.2 + 1)).1 := by
    rw [← hl]; exact mapSt_mapSt_forall₂ _ _ _ (rewrite_keptIn g) rs _ _
  generalize hk : convertConnectionInstancesIntoConfig g loaded.1 (loaded.2 + 1) = written
    at hkept
  have hwlen : written.1.length = loaded.1.length := by
    rw [← hk]; exact mapSt_length _ _ _
  have hfile : (convertConnectionInstancesIntoConfig g
      (loaded.1 ++ [(createConnection g { o with id := .str (g.draw w.uuid) } loaded.2).1])
      (loaded.2 + 1)).1 =
      written.1 ++ [(convertConnectionInstanceIntoConfig g
        (createConnection g { o with id := .str (g.draw w.uuid) } loaded.2).1 written.2).1] := by
    unfold convertConnectionInstancesIntoConfig at hk ⊢
    rw [mapSt_append, hk]
    rfl
  refine ⟨written.1,
    (convertConnectionInstanceIntoConfig g
      (createConnection g { o with id := .str (g.draw w.uuid) } loaded.2).1 written.2).1,
    (convertDatabase g
      { id := .str (g.draw loaded.2), name := o.databaseName, host := o.host, port := o.port,
        auth := o.auth } written.2).1,
    { id := .str (g.draw loaded.2), name := o.databaseName, host := o.host, port := o.port,
      auth := o.auth },
    ?_, ?_, rfl, hkept, ?_, rfl, rfl, rfl, ?_, ?_, ?_, rfl, rfl, rfl, rfl, rfl, rfl, rfl, rfl⟩
  · simp only [hfile]
  · simp [hwlen, hlen]
  · exact toConfig_one_id g _ _ hid
  · simp [convertConnectionInstanceIntoConfig, createConnection, Connection.new,
      Connection.addDatabase, mapSt, uuid_v4, orUuid_of_truthy g _ _ hid]
  · exact convertDatabase_name g _ _
  · exact (toConfig_one_id g _ _ hid).symm

/-- C1 at the test of the spec: a store holding `recordAbc`, a caller-supplied
id `x`. -/
theorem create_appends_new_record_witness :
    (readConfigFile (worldOf [recordAbc])).1 = .ok [recordAbc] ∧
    create unaryGen (some optionsP3) (worldOf [recordAbc]) =
      (.ok createdP3, (create unaryGen (some optionsP3) (worldOf [recordAbc])).2) ∧
    ∃ (old : List ConnectionConfig) (added : ConnectionConfig) (nd : DatabaseConfig)
      (d : Database),
      (create unaryGen (some optionsP3) (worldOf [recordAbc])).2.file =
        .json (some (old ++ [added])) ∧
      (old ++ [added]).length = [recordAbc].length + 1 ∧
      old = (convertConnectionInstancesIntoConfig unaryGen
              (generateConnectionInstancesFromConfig unaryGen [recordAbc]
                ((worldOf [recordAbc]).uuid + 1)).1
              ((generateConnectionInstancesFromConfig unaryGen [recordAbc]
                ((worldOf [recordAbc]).uuid + 1)).2 + 1)).1 ∧
      List.Forall₂ ConnectionConfig.keptIn [recordAbc] old ∧
      added.id = .str (unaryGen.draw (worldOf [recordAbc]).uuid) ∧ added.name = optionsP3.name ∧
      added.host = optionsP3.host ∧ added.port = optionsP3.port ∧
      added.databases = some [nd] ∧ nd.name = optionsP3.databaseName ∧
      createdP3.id = added.id ∧ createdP3.name = optionsP3.name ∧
      createdP3.host = optionsP3.host ∧ createdP3.port = optionsP3.port ∧
      createdP3.databases = [d] ∧ d.name = optionsP3.databaseName ∧
      d.host = optionsP3.host ∧ d.port = optionsP3.port ∧
      create unaryGen (some { optionsP3 with id := .str "caller" }) (worldOf [recordAbc]) =
        create unaryGen (some optionsP3) (worldOf [recordAbc]) :=
  ⟨rfl, rfl,
    create_appends_new_record unaryGen optionsP3 (worldOf [recordAbc]) _ [recordAbc] createdP3
      (.str "caller") rfl rfl⟩

/-- C2, as stated, fails on a store in which two records carry the id `abc`:
`delete("abc")` removes the first of them only, the written store still holds
a record with id `abc`, and a second `delete("abc")` succeeds. -/
theorem delete_duplicate_id_counterexample :
    (delete unaryGen (.str "abc") (worldOf [recordAbc, recordAbcTwin])).1 = .ok () ∧
    (delete unaryGen (.str "abc") (worldOf [recordAbc, recordAbcTwin])).2.file =
      .json (some [recordAbcTwin]) ∧
    recordAbcTwin.id = .str "abc" ∧
    (delete unaryGen (.str "abc")
      (delete unaryGen (.str "abc") (worldOf [recordAbc, recordAbcTwin])).2).1 = .ok () :=
  ⟨rfl, rfl, rfl, rfl⟩

/-- C2, amended: when exactly one of the `N` stored records has the id `X`,
`X` is truthy (non-empty), every stored record without a truthy id is loaded
by this `delete` under an id other than `X`, and writes go through,
`delete(X)` succeeds and leaves a store of `N - 1` records none of which has
id `X`; a second `delete(X)` on that store fails with the not-found error.
Nothing is asked of the ids the generator yields at other times, nor of the
ids it draws for databases. -/
theorem delete_removes_the_record (g : IdGen) (X : JVal) (w : World)
    (rs : List ConnectionConfig)
    (hread : (readConfigFile w).1 = .ok rs) (hfault : w.writeFault = none)
    (hX : X.truthy = true)
    (hone : rs.countP (fun r => r.id == X) = 1)
    (hdrawn : List.Forall₂ (fun (r : ConnectionConfig) (c : Connection) =>
        r.id.truthy = false → c.id ≠ X) rs
      (generateConnectionInstancesFromConfig g rs w.uuid).1) :
    ∃ (out : List ConnectionConfig) (w1 : World),
      delete g X w = (.ok (), w1) ∧
      w1.file = .json (some out) ∧
      out.length = rs.length - 1 ∧
      (∀ r ∈ out, r.id ≠ X) ∧
      (delete g X w1).1 = .error (.error "Connection not found") := by
  -- exactly one loaded connection has the id `X`
  have hshape : List.Forall₂
      (fun r c => ∃ m, c = (generateConnectionInstanceFromConfig g r m).1) rs
      (generateConnectionInstancesFromConfig g rs w.uuid).1 :=
    mapSt_forall₂ _ _ rs (fun r _ m => ⟨m, rfl⟩) _
  have hsame : List.Forall₂
      (fun (r : ConnectionConfig) (c : Connection) => (r.id == X) = (c.id == X)) rs
      (generateConnectionInstancesFromConfig g rs w.uuid).1 := by
    refine List.Forall₂.mp ?_ hshape hdrawn
    rintro r c ⟨m, rfl⟩ hd
    cases ht : r.id.truthy with
    | true =>
      rw [fromConfig_one, orUuid_of_truthy g r.id m ht]
    | false =>
      have h1 : r.id ≠ X := by
        intro h
        rw [h, hX] at ht
        exact Bool.noConfusion ht
      have h2 := hd ht
      simp [h1, h2]
  have hcount := (forall₂_countP _ _ _ _ hsame).symm.trans hone
  have hLt := fromConfig_ids_truthy g rs w.uuid
  have hLlen : (generateConnectionInstancesFromConfig g rs w.uuid).1.length = rs.length :=
    mapSt_length _ _ _
  generalize hL : generateConnectionInstancesFromConfig g rs w.uuid = L
    at hcount hLt hLlen
  obtain ⟨remaining, hrem, hlen, hsub, hne⟩ := removeConnection_of_count_one X L.1 hcount
  have hdel := delete_of_removed g X w rs remaining hread hfault (by rw [hL]; exact hrem)
  rw [hL] at hdel
  -- what is written has the ids of the connections that remain
  have hids := toConfig_ids g remaining L.2 (fun a ha => hLt a (hsub a ha))
  have hout : ∀ r ∈ (convertConnectionInstancesIntoConfig g remaining L.2).1, r.id ≠ X :=
    ne_of_map_eq _ _ X _ _ hids hne
  have hoT := toConfig_ids_truthy g remaining L.2
  have hwlen : (convertConnectionInstancesIntoConfig g remaining L.2).1.length =
      remaining.length := mapSt_length _ _ _
  generalize convertConnectionInstancesIntoConfig g remaining L.2 = written
    at hdel hout hoT hwlen
  refine ⟨written.1, _, hdel, rfl, ?_, hout, ?_⟩
  · omega
  · -- the second delete loads the written ids unchanged
    rw [delete_of_not_found g X _ written.1 (readConfigFile_json _ (some written.1) rfl)]
    exact ne_of_map_eq _ _ X _ _ (fromConfig_ids g written.1 _ hoT) hout

/-- C2, amended, at a store of three records: `recordAbc`, whose database is
loaded under the drawn id `u`, `recordU` with the id `u`, and `recordNoId`,
loaded under the drawn id `uu`.  `delete("u")` leaves two records. -/
theorem delete_removes_the_record_witness :
    (∃ (out : List ConnectionConfig) (w1 : World),
      delete unaryGen (.str "u") (worldOf [recordAbc, recordU, recordNoId]) = (.ok (), w1) ∧
      w1.file = .json (some out) ∧
      out.length = [recordAbc, recordU, recordNoId].length - 1 ∧
      (∀ r ∈ out, r.id ≠ .str "u") ∧
      (delete unaryGen (.str "u") w1).1 = .error (.error "Connection not found")) ∧
    unaryGen.draw 0 = "u" ∧
    (delete unaryGen (.str "u") (worldOf [recordAbc, recordU, recordNoId])).2.file =
      .json (some
        [recordAbc,
         { id := .str "uu", name := .str "n2", host := .str "h2", port := .num 27019
           databases := some [] }]) :=
  ⟨delete_removes_the_record unaryGen (.str "u") (worldOf [recordAbc, recordU, recordNoId])
      [recordAbc, recordU, recordNoId] rfl rfl rfl rfl
      (.cons (by decide) (.cons (by decide) (.cons (by decide) .nil))),
   rfl, rfl⟩

/-- C3: when the load succeeds and no loaded connection has the id `id`,
`delete(id)` fails with the not-found error and issues no write: the file is
what it was before the call. -/
theorem delete_unknown_id_no_write (g : IdGen) (id : JVal) (w : World)
    (cs : List Connection)
    (hl : (list g w).1 = .ok cs) (hno : ∀ c ∈ cs, c.id ≠ id) :
    (delete g id w).1 = .error (.error "Connection not found") ∧
    (delete g id w).2.file = w.file ∧
    (delete g id w).2.writes = w.writes := by
  cases hr : (readConfigFile w).1 with
  | error e =>
    rw [list_of_read_error g w e hr] at hl
    simp at hl
  | ok rs =>
    rw [list_of_read_ok g w rs hr] at hl
    simp only [Except.ok.injEq] at hl
    subst hl
    rw [delete_of_not_found g id w rs hr hno]
    exact ⟨rfl, rfl, rfl⟩

/-- C3 at the store holding `recordAbc`, for the id `zzz`. -/
theorem delete_unknown_id_no_write_witness :
    (list unaryGen (worldOf [recordAbc])).1 = .ok [loadedAbc] ∧
    (delete unaryGen (.str "zzz") (worldOf [recordAbc])).1 =
      .error (.error "Connection not found") ∧
    (delete unaryGen (.str "zzz") (worldOf [recordAbc])).2.file = (worldOf [recordAbc]).file ∧
    (delete unaryGen (.str "zzz") (worldOf [recordAbc])).2.writes =
      (worldOf [recordAbc]).writes :=
  ⟨rfl, delete_unknown_id_no_write unaryGen (.str "zzz") (worldOf [recordAbc]) [loadedAbc] rfl
    (by decide)⟩

/-- C4: `toConfig` followed by `fromConfig` yields a list of the same length
and order in which each connection has the same name, host, port and database
names (in order), keeps an id that was present and has an id in any case, and
in which every database has the host and port of its connection. -/
theorem toConfig_fromConfig_round_trip (g : IdGen) (cs : List Connection) (n k : Nat) :
    (generateConnectionInstancesFromConfig g
      (convertConnectionInstancesIntoConfig g cs n).1 k).1.length = cs.length ∧
    List.Forall₂ Connection.roundTripsTo cs
      (generateConnectionInstancesFromConfig g
        (convertConnectionInstancesIntoConfig g cs n).1 k).1 := by
  constructor
  · simp [generateConnectionInstancesFromConfig, convertConnectionInstancesIntoConfig,
      mapSt_length]
  · apply mapSt_mapSt_forall₂
    intro c m j
    refine ⟨?_, ?_, ?_, ?_, ?_, fromConfig_one_id_truthy g _ _, ?_⟩
    · simp [convertConnectionInstanceIntoConfig, fromConfig_one]
    · simp [convertConnectionInstanceIntoConfig, fromConfig_one]
    · simp [convertConnectionInstanceIntoConfig, fromConfig_one]
    · rw [fromConfig_one_databaseNames, toConfig_one_databaseNames]
    · intro h
      rw [fromConfig_one, toConfig_one_id g c m h, orUuid_of_truthy g c.id j h]
    · intro d hd
      rw [fromConfig_one] at hd ⊢
      obtain ⟨x, -, i, rfl⟩ := mapSt_mem _ _ _ _ hd
      exact ⟨rfl, rfl⟩

/-- C4 at the list holding `connectionWithAuth` and a connection without
id. -/
theorem toConfig_fromConfig_round_trip_witness :
    List.Forall₂ Connection.roundTripsTo
      [connectionWithAuth, { connectionWithAuth with id := .undefined }]
      (generateConnectionInstancesFromConfig unaryGen
        (convertConnectionInstancesIntoConfig unaryGen
          [connectionWithAuth, { connectionWithAuth with id := .undefined }] 0).1 1).1 :=
  (toConfig_fromConfig_round_trip unaryGen
    [connectionWithAuth, { connectionWithAuth with id := .undefined }] 0 1).2

/-- C5, as stated, fails for a file that does not exist: the read reports the
no-such-file error, whose message is not the tolerated one, and `list()` fails
with it. -/
theorem list_missing_file_counterexample :
    (jsonfile.readFile FileState.missing).1 = some enoent ∧
    (list unaryGen (worldWith .missing)).1 = .error (.storage enoent) :=
  ⟨rfl, rfl⟩

/-- C5, amended: reading a zero-byte file (the read fails with `Unexpected
end of input`) yields the empty list and `list()` resolves with the empty
sequence; reading a file that does not exist fails, and so does `list()`,
with the no-such-file error of the read. -/
theorem read_tolerates_empty_file_only (g : IdGen) (w : World) :
    (w.file = .empty →
      (jsonfile.readFile w.file).1 = some unexpectedEnd ∧
      (readConfigFile w).1 = .ok [] ∧ (list g w).1 = .ok []) ∧
    (w.file = .missing →
      (jsonfile.readFile w.file).1 = some enoent ∧
      (readConfigFile w).1 = .error (.storage enoent) ∧
      (list g w).1 = .error (.storage enoent)) := by
  constructor
  · intro h
    have hr : (readConfigFile w).1 = .ok [] := by
      simp [readConfigFile, h, jsonfile.readFile, unexpectedEnd]
    refine ⟨by rw [h]; rfl, hr, ?_⟩
    rw [list_of_read_ok g w [] hr]
    rfl
  · intro h
    have hr : (readConfigFile w).1 = .error (.storage enoent) := by
      simp [readConfigFile, h, jsonfile.readFile, enoent]
    refine ⟨by rw [h]; rfl, hr, ?_⟩
    rw [list_of_read_error g w _ hr]

/-- C5, amended, at a fresh zero-byte file and at a missing file. -/
theorem read_tolerates_empty_file_only_witness :
    (list unaryGen (worldWith .empty)).1 = .ok [] ∧
    (list unaryGen (worldWith .missing)).1 = .error (.storage enoent) :=
  ⟨((read_tolerates_empty_file_only unaryGen (worldWith .empty)).1 rfl).2.2,
   ((read_tolerates_empty_file_only unaryGen (worldWith .missing)).2 rfl).2.2⟩

/-- C6: the code at a Database with id `d1` whose auth value carries the id
`a1`.  The claim asks for an auth block with the id `a1`; `toConfig` emits the
id `d1` of the Database in its place.  As the database record is written
without id, the stored auth id does not survive a rewrite of the file either:
in a store where the auth block has the id `a1`, a `delete` of another record
rewrites it with the id `uu`, and a following `create` with the id `uuuu`. -/
theorem toConfig_overwrites_auth_id :
    databaseWithAuth.id = .str "d1" ∧
    databaseWithAuth.auth =
      some { id := .str "a1", username := .str "user", password := .str "pw" } ∧
    convertConnectionInstanceIntoConfig unaryGen connectionWithAuth 0 =
      ({ id := .str "abc", name := .str "n0", host := .str "h0", port := .num 27017
         databases := some
           [{ id := .undefined, name := .str "d0", host := .undefined, port := .undefined
              auth := some
                { id := .str "d1", username := .str "user", password := .str "pw" } }] },
       0) ∧
    JVal.str "d1" ≠ JVal.str "a1" ∧
    (delete unaryGen (.str "abc") (worldOf [recordAbc, authRecordWith (.str "a1")])).2.file =
      .json (some [authRecordWith (.str "uu")]) ∧
    (create unaryGen (some optionsP3)
      (delete unaryGen (.str "abc")
        (worldOf [recordAbc, authRecordWith (.str "a1")])).2).2.file =
      .json (some [authRecordWith (.str "uuuu"), recordP3]) :=
  ⟨rfl, rfl, rfl, by decide, rfl, rfl⟩

/-- C7: `create` without options fails with the InternalServiceError and
leaves the world as it was: no read, no write, no id drawn. -/
theorem create_absent_options (g : IdGen) (w : World) :
    create g none w = (.error (.internalService "options is required"), w) := rfl

/-- C8: after a successful `create` and after a successful `delete` every
record of the written list has a truthy (non-empty) id, and the record
written for a stored record that had a truthy id carries exactly that id.
After `create` the written list is one record per stored record, in order,
followed by the new one; after `delete` it is one record per stored record
but the removed one, in order. -/
theorem persisted_ids_present_and_stable (g : IdGen) (w w1 : World)
    (rs : List ConnectionConfig) (hread : (readConfigFile w).1 = .ok rs) :
    (∀ o c, create g (some o) w = (.ok c, w1) →
      ∃ old added, w1.file = .json (some (old ++ [added])) ∧
        (∀ r ∈ old ++ [added], r.id.truthy = true) ∧
        List.Forall₂ (fun r r1 => r.id.truthy = true → r1.id = r.id) rs old) ∧
    (∀ id, delete g id w = (.ok (), w1) →
      ∃ i out, i < rs.length ∧ w1.file = .json (some out) ∧
        (∀ r ∈ out, r.id.truthy = true) ∧
        List.Forall₂ (fun r r1 => r.id.truthy = true → r1.id = r.id) (rs.eraseIdx i) out) := by
  constructor
  · intro o c hc
    obtain ⟨-, hf⟩ := create_ok_inv g o w w1 c hc
    rw [create_of_read_ok g o w rs hread hf] at hc
    simp only [Prod.mk.injEq, Except.ok.injEq] at hc
    obtain ⟨-, hw1⟩ := hc
    subst hw1
    refine ⟨(convertConnectionInstancesIntoConfig g
        (generateConnectionInstancesFromConfig g rs (w.uuid + 1)).1
        ((generateConnectionInstancesFromConfig g rs (w.uuid + 1)).2 + 1)).1,
      (convertConnectionInstanceIntoConfig g
        (createConnection g { o with id := .str (g.draw w.uuid) }
          (generateConnectionInstancesFromConfig g rs (w.uuid + 1)).2).1
        (convertConnectionInstancesIntoConfig g
          (generateConnectionInstancesFromConfig g rs (w.uuid + 1)).1
          ((generateConnectionInstancesFromConfig g rs (w.uuid + 1)).2 + 1)).2).1, ?_, ?_, ?_⟩
    · simp only [convertConnectionInstancesIntoConfig, mapSt_append, mapSt]
    · have h := toConfig_ids_truthy g
        ((generateConnectionInstancesFromConfig g rs (w.uuid + 1)).1 ++
          [(createConnection g { o with id := .str (g.draw w.uuid) }
            (generateConnectionInstancesFromConfig g rs (w.uuid + 1)).2).1])
        ((generateConnectionInstancesFromConfig g rs (w.uuid + 1)).2 + 1)
      simpa only [convertConnectionInstancesIntoConfig, mapSt_append, mapSt] using h
    · exact mapSt_mapSt_forall₂ _ _ _ (fun r n k => (rewrite_keptIn g r n k).2.2.2.2) rs _ _
  · intro id hd
    obtain ⟨rs1, remaining, hr1, hf, hrem⟩ := delete_ok_inv g id w w1 hd
    rw [hread] at hr1
    simp only [Except.ok.injEq] at hr1
    subst hr1
    rw [delete_of_removed g id w rs remaining hread hf hrem] at hd
    simp only [Prod.mk.injEq, true_and] at hd
    subst hd
    obtain ⟨i, hi, rfl⟩ := removeConnection_ok_inv id _ _ hrem
    have hlen : (generateConnectionInstancesFromConfig g rs w.uuid).1.length = rs.length :=
      mapSt_length _ _ _
    refine ⟨i, _, hlen ▸ hi, rfl, toConfig_ids_truthy g _ _, ?_⟩
    have h1 : List.Forall₂
        (fun r c => ∃ m, c = (generateConnectionInstanceFromConfig g r m).1) rs
        (generateConnectionInstancesFromConfig g rs w.uuid).1 :=
      mapSt_forall₂ _ _ rs (fun r _ m => ⟨m, rfl⟩) _
    have h2 : List.Forall₂
        (fun c r1 => ∃ k, r1 = (convertConnectionInstanceIntoConfig g c k).1)
        ((generateConnectionInstancesFromConfig g rs w.uuid).1.eraseIdx i)
        (convertConnectionInstancesIntoConfig g
          ((generateConnectionInstancesFromConfig g rs w.uuid).1.eraseIdx i)
          (generateConnectionInstancesFromConfig g rs w.uuid).2).1 :=
      mapSt_forall₂ _ _ _ (fun c _ k => ⟨k, rfl⟩) _
    refine forall₂_chain _ _ _ ?_ _ _ _ (forall₂_eraseIdx _ _ _ h1 i) h2
    rintro r c r1 ⟨m, rfl⟩ ⟨k, rfl⟩
    exact (rewrite_keptIn g r m k).2.2.2.2

/-- C8 at a store whose first record has no id: `create` and `delete("abc")`. -/
theorem persisted_ids_present_and_stable_witness :
    (readConfigFile (worldOf [recordNoId, recordAbc])).1 = .ok [recordNoId, recordAbc] ∧
    (∃ old added,
      (create unaryGen (some optionsP3) (worldOf [recordNoId, recordAbc])).2.file =
        .json (some (old ++ [added])) ∧
      (∀ r ∈ old ++ [added], r.id.truthy = true) ∧
      List.Forall₂ (fun r r1 => r.id.truthy = true → r1.id = r.id)
        [recordNoId, recordAbc] old) ∧
    (∃ i out, i < [recordNoId, recordAbc].length ∧
      (delete unaryGen (.str "abc") (worldOf [recordNoId, recordAbc])).2.file =
        .json (some out) ∧
      (∀ r ∈ out, r.id.truthy = true) ∧
      List.Forall₂ (fun r r1 => r.id.truthy = true → r1.id = r.id)
        ([recordNoId, recordAbc].eraseIdx i) out) :=
  ⟨rfl,
   (persisted_ids_present_and_stable unaryGen (worldOf [recordNoId, recordAbc])
      (create unaryGen (some optionsP3) (worldOf [recordNoId, recordAbc])).2
      [recordNoId, recordAbc] rfl).1 optionsP3 createdAfterNoId rfl,
   (persisted_ids_present_and_stable unaryGen (worldOf [recordNoId, recordAbc])
      (delete unaryGen (.str "abc") (worldOf [recordNoId, recordAbc])).2
      [recordNoId, recordAbc] rfl).2 (.str "abc") rfl⟩

/-- C9: if `create(options)` resolves with `c` and the id of `c` differs from
the id of every connection loaded by that call, then the record appended to
the file carries the id of `c`, `delete(c.id)` succeeds, and a following
`list()` returns connections with the ids, names, hosts, ports and database
names, in order, of the connections loaded before the create (hence the
names, hosts, ports, database names and truthy ids of the stored records).
From an empty store, `create(optionsDb1)` then `list()` gives exactly one
connection, named `db1`, with one database named `mydb`; `delete` of its id
then `list()` gives the empty sequence. -/
theorem create_then_delete_restores (g : IdGen) :
    (∀ (o : Options) (w w1 : World) (rs : List ConnectionConfig) (c : Connection),
      (readConfigFile w).1 = .ok rs →
      create g (some o) w = (.ok c, w1) →
      (∀ c0 ∈ (generateConnectionInstancesFromConfig g rs (w.uuid + 1)).1, c0.id ≠ c.id) →
      (∃ old added, w1.file = .json (some (old ++ [added])) ∧ old.length = rs.length ∧
        added.id = c.id) ∧
      ∃ w2 cs w3, delete g c.id w1 = (.ok (), w2) ∧ list g w2 = (.ok cs, w3) ∧
        cs.map Connection.core =
          (generateConnectionInstancesFromConfig g rs (w.uuid + 1)).1.map Connection.core ∧
        cs.length = rs.length ∧
        List.Forall₂ ConnectionConfig.loadedAs rs cs) ∧
    (∀ w0 : World, (readConfigFile w0).1 = .ok [] → w0.writeFault = none →
      ∃ c w1 c1 d1 w2 w3 w4,
        create g (some optionsDb1) w0 = (.ok c, w1) ∧
        list g w1 = (.ok [c1], w2) ∧ c1.id = c.id ∧ c1.name = .str "db1" ∧
        c1.databases = [d1] ∧ d1.name = .str "mydb" ∧
        delete g c.id w2 = (.ok (), w3) ∧ list g w3 = (.ok [], w4)) := by
  constructor
  · intro o w w1 rs c hread hc hfresh
    obtain ⟨-, hf⟩ := create_ok_inv g o w w1 c hc
    rw [create_of_read_ok g o w rs hread hf] at hc
    simp only [Prod.mk.injEq, Except.ok.injEq] at hc
    obtain ⟨hc1, hw1⟩ := hc
    have hcid : c.id = .str (g.draw w.uuid) := by rw [← hc1]; rfl
    have hidt : c.id.truthy = true := by
      rw [hcid]; simpa [JVal.truthy] using g.nonempty w.uuid
    generalize hL : generateConnectionInstancesFromConfig g rs (w.uuid + 1) = L at hc1 hw1 hfresh
    rw [hc1] at hw1
    have hLt : ∀ a ∈ L.1, a.id.truthy = true := by
      rw [← hL]; exact fromConfig_ids_truthy g rs _
    have hLlen : L.1.length = rs.length := by rw [← hL]; exact mapSt_length _ _ _
    have hLas : List.Forall₂ ConnectionConfig.loadedAs rs L.1 := by
      rw [← hL]; exact mapSt_forall₂ _ _ rs (fun r _ m => fromConfig_one_loadedAs g r m) _
    -- what was written
    have hsplit : (convertConnectionInstancesIntoConfig g (L.1 ++ [c]) (L.2 + 1)).1 =
        (convertConnectionInstancesIntoConfig g L.1 (L.2 + 1)).1 ++
          [(convertConnectionInstanceIntoConfig g c
            (convertConnectionInstancesIntoConfig g L.1 (L.2 + 1)).2).1] := by
      simp only [convertConnectionInstancesIntoConfig, mapSt_append, mapSt]
    have hOcore := toConfig_core g L.1 (L.2 + 1) hLt
    have hOt := toConfig_ids_truthy g L.1 (L.2 + 1)
    generalize hO : convertConnectionInstancesIntoConfig g L.1 (L.2 + 1) = O
      at hsplit hOcore hOt
    have haid : (convertConnectionInstanceIntoConfig g c O.2).1.id = c.id :=
      toConfig_one_id g c O.2 hidt
    generalize hadd : (convertConnectionInstanceIntoConfig g c O.2).1 = added at hsplit haid
    have hOlen : O.1.length = rs.length := by
      have := congrArg List.length hOcore
      simpa [hLlen] using this
    have hfile : w1.file = .json (some (O.1 ++ [added])) := by
      rw [← hw1, hsplit]
    have hf1 : w1.writeFault = none := by rw [← hw1]
    refine ⟨⟨O.1, added, hfile, hOlen, haid⟩, ?_⟩
    -- the delete
    have hread1 : (readConfigFile w1).1 = .ok (O.1 ++ [added]) :=
      readConfigFile_json w1 _ hfile
    have hload1 : (generateConnectionInstancesFromConfig g (O.1 ++ [added]) w1.uuid).1 =
        (generateConnectionInstancesFromConfig g O.1 w1.uuid).1 ++
          (generateConnectionInstanceFromConfig g added
            (generateConnectionInstancesFromConfig g O.1 w1.uuid).2).1 :: [] := by
      simp only [generateConnectionInstancesFromConfig, mapSt_append, mapSt]
    have hAcore := fromConfig_core g O.1 w1.uuid hOt
    have hAt := fromConfig_ids_truthy g O.1 w1.uuid
    generalize hA : generateConnectionInstancesFromConfig g O.1 w1.uuid = A
      at hload1 hAcore hAt
    have hAL : A.1.map Connection.core = L.1.map Connection.core := hAcore.trans hOcore
    have hAne : ∀ a ∈ A.1, a.id ≠ c.id := by
      intro a ha hEq
      have hmem : a.core ∈ L.1.map Connection.core := by
        rw [← hAL]; exact List.mem_map_of_mem _ ha
      obtain ⟨c0, hc0, hcore⟩ := List.mem_map.mp hmem
      have hid0 : c0.id = a.id := congrArg Prod.fst hcore
      exact hfresh c0 hc0 (hid0.trans hEq)
    have hBid : (generateConnectionInstanceFromConfig g added A.2).1.id = c.id := by
      rw [fromConfig_one, orUuid_of_truthy g added.id _ (by rw [haid]; exact hidt)]
      exact haid
    have hrem : removeConnection c.id
        (generateConnectionInstancesFromConfig g (O.1 ++ [added]) w1.uuid).1 = .ok A.1 := by
      rw [hload1]
      have := removeConnection_of_split c.id A.1 [] _ hBid hAne
      simpa using this
    have hdel := delete_of_removed g c.id w1 _ A.1 hread1 hf1 hrem
    -- the list after the delete
    have hread2 := readConfigFile_json _ _ (rfl :
        ({ file := .json (some (convertConnectionInstancesIntoConfig g A.1
              (generateConnectionInstancesFromConfig g (O.1 ++ [added]) w1.uuid).2).1)
           uuid := (convertConnectionInstancesIntoConfig g A.1
              (generateConnectionInstancesFromConfig g (O.1 ++ [added]) w1.uuid).2).2
           writeFault := none
           reads := w1.reads + 1
           writes := w1.writes + 1 } : World).file = _)
    have hlist := list_of_read_ok g _ _ hread2
    simp only [Option.getD_some] at hlist
    refine ⟨_, _, _, hdel, hlist, ?_, ?_, ?_⟩
    · rw [fromConfig_core g _ _ (toConfig_ids_truthy g _ _), toConfig_core g _ _ hAt, hAL]
    · simp [generateConnectionInstancesFromConfig, convertConnectionInstancesIntoConfig,
        mapSt_length]
      have := congrArg List.length hAL
      simpa [hLlen] using this
    · refine forall₂_of_map_eq _ Connection.core
        (fun r y z hyz hy => loadedAs_of_core_eq r y z hyz hy) rs L.1 _ hLas ?_
      rw [fromConfig_core g _ _ (toConfig_ids_truthy g _ _), toConfig_core g _ _ hAt, hAL]
  · intro w0 h0 hf0
    have hne : ∀ k, (g.draw k != "") = true := fun k => by simpa using g.nonempty k
    have hc := create_of_read_ok g optionsDb1 w0 [] h0 hf0
    simp only [generateConnectionInstancesFromConfig, convertConnectionInstancesIntoConfig,
      mapSt, createConnection, uuid_v4, Connection.new, Connection.addDatabase,
      convertConnectionInstanceIntoConfig, convertDatabase, optionsDb1, orUuid,
      JVal.truthy, hne, List.nil_append, if_true] at hc
    -- the world after the create: one record, writes still go through
    obtain ⟨w1, hfile1, hfault1, hc⟩ : ∃ w1 : World,
        w1.file = .json (some
          [{ id := .str (g.draw w0.uuid), name := .str "db1", host := .str "localhost",
             port := .num 5432,
             databases := some
               [{ id := .undefined, name := .str "mydb", host := .undefined,
                  port := .undefined, auth := none }] }]) ∧
        w1.writeFault = none ∧
        create g (some optionsDb1) w0 =
          (.ok { id := .str (g.draw w0.uuid), name := .str "db1", host := .str "localhost",
                 port := .num 5432,
                 databases :=
                   [{ id := .str (g.draw (w0.uuid + 1)), name := .str "mydb",
                      host := .str "localhost", port := .num 5432, auth := none }] }, w1) :=
      ⟨_, rfl, rfl, hc⟩
    have hl1 := list_of_read_ok g w1 _ (readConfigFile_json w1 _ hfile1)
    simp only [generateConnectionInstancesFromConfig, mapSt, Option.getD_some,
      generateConnectionInstanceFromConfig, eachDatabase, databaseFromConfig,
      Connection.new, Connection.addDatabase, orUuid, uuid_v4, JVal.truthy, hne,
      List.nil_append, if_true, Bool.false_eq_true, if_false] at hl1
    -- the world after the list: the same file
    obtain ⟨w2, hfile2, hfault2, hl1⟩ : ∃ w2 : World,
        w2.file = w1.file ∧ w2.writeFault = none ∧
        list g w1 =
          (.ok [{ id := .str (g.draw w0.uuid), name := .str "db1", host := .str "localhost",
                  port := .num 5432,
                  databases :=
                    [{ id := .str (g.draw w1.uuid), name := .str "mydb",
                       host := .str "localhost", port := .num 5432, auth := none }] }], w2) :=
      ⟨{ w1 with uuid := w1.uuid + 1, reads := w1.reads + 1 }, rfl, hfault1, hl1⟩
    have hread2 := readConfigFile_json w2 _ (hfile2.trans hfile1)
    have hrem : removeConnection (.str (g.draw w0.uuid))
        (generateConnectionInstancesFromConfig g
          [{ id := .str (g.draw w0.uuid), name := .str "db1", host := .str "localhost",
             port := .num 5432,
             databases := some
               [{ id := .undefined, name := .str "mydb", host := .undefined,
                  port := .undefined, auth := none }] }] w2.uuid).1 = .ok [] := by
      simp [generateConnectionInstancesFromConfig, mapSt,
        generateConnectionInstanceFromConfig, eachDatabase, databaseFromConfig,
        Connection.new, Connection.addDatabase, orUuid, uuid_v4, JVal.truthy, hne,
        removeConnection]
    have hd := delete_of_removed g (.str (g.draw w0.uuid)) w2 _ [] hread2 hfault2 hrem
    obtain ⟨w3, hd, hfile3⟩ : ∃ w3 : World,
        delete g (.str (g.draw w0.uuid)) w2 = (.ok (), w3) ∧ w3.file = .json (some []) :=
      ⟨_, hd, rfl⟩
    have hl3 := list_of_read_ok g w3 _ (readConfigFile_json w3 _ hfile3)
    exact ⟨_, w1, _, _, w2, w3, _, hc, hl1, rfl, rfl, rfl, rfl, hd, hl3⟩

/-- C9 at a store of two records (the first without id), and the scenario
from a zero-byte file. -/
theorem create_then_delete_restores_witness :
    ((∃ old added,
        (create unaryGen (some optionsP3) (worldOf [recordNoId, recordAbc])).2.file =
          .json (some (old ++ [added])) ∧
        old.length = [recordNoId, recordAbc].length ∧ added.id = createdAfterNoId.id) ∧
      ∃ w2 cs w3,
        delete unaryGen createdAfterNoId.id
          (create unaryGen (some optionsP3) (worldOf [recordNoId, recordAbc])).2 = (.ok (), w2) ∧
        list unaryGen w2 = (.ok cs, w3) ∧
        cs.map Connection.core =
          (generateConnectionInstancesFromConfig unaryGen [recordNoId, recordAbc]
            ((worldOf [recordNoId, recordAbc]).uuid + 1)).1.map Connection.core ∧
        cs.length = [recordNoId, recordAbc].length ∧
        List.Forall₂ ConnectionConfig.loadedAs [recordNoId, recordAbc] cs) ∧
    (∃ c w1 c1 d1 w2 w3 w4,
      create unaryGen (some optionsDb1) (worldWith .empty) = (.ok c, w1) ∧
      list unaryGen w1 = (.ok [c1], w2) ∧ c1.id = c.id ∧ c1.name = .str "db1" ∧
      c1.databases = [d1] ∧ d1.name = .str "mydb" ∧
      delete unaryGen c.id w2 = (.ok (), w3) ∧ list unaryGen w3 = (.ok [], w4)) :=
  ⟨(create_then_delete_restores unaryGen).1 optionsP3 (worldOf [recordNoId, recordAbc])
      (create unaryGen (some optionsP3) (worldOf [recordNoId, recordAbc])).2
      [recordNoId, recordAbc] createdAfterNoId rfl rfl (by decide),
   (create_then_delete_restores unaryGen).2 (worldWith .empty) rfl rfl⟩

/-- C10: `list()` issues no write and leaves the file as it was; a second
`list()` right after the first fails with the same error when the first
failed, and otherwise both resolve with one connection per stored record, and
position by position the two connections agree on name, host, port, on the
number of databases and each database's name, host, port and auth, and on
every connection id and database id for which the stored record has a truthy
id. -/
theorem list_twice_agrees (g : IdGen) (w : World) :
    (list g w).2.file = w.file ∧ (list g w).2.writes = w.writes ∧
    (∀ e, (list g w).1 = .error e → (list g (list g w).2).1 = .error e) ∧
    (∀ rs, (readConfigFile w).1 = .ok rs →
      ∃ cs1 cs2, (list g w).1 = .ok cs1 ∧ (list g (list g w).2).1 = .ok cs2 ∧
        cs1.length = rs.length ∧ cs2.length = rs.length ∧
        ∀ (i : Nat) (r : ConnectionConfig) (c1 c2 : Connection),
          rs[i]? = some r → cs1[i]? = some c1 → cs2[i]? = some c2 → r.loadsAgree c1 c2) := by
  cases hr : (readConfigFile w).1 with
  | error e =>
    have hl := list_of_read_error g w e hr
    have hr2 : (readConfigFile (list g w).2).1 = .error e :=
      (readConfigFile_file w (list g w).2 (by rw [hl])).trans hr
    refine ⟨by rw [hl], by rw [hl], ?_, ?_⟩
    · intro e1 he1
      rw [hl] at he1
      simp only [Except.error.injEq] at he1
      subst he1
      rw [list_of_read_error g _ e hr2]
    · intro rs hrs
      simp at hrs
  | ok rs =>
    have hl := list_of_read_ok g w rs hr
    have hr2 : (readConfigFile (list g w).2).1 = .ok rs :=
      (readConfigFile_file w (list g w).2 (by rw [hl])).trans hr
    refine ⟨by rw [hl], by rw [hl], ?_, ?_⟩
    · intro e1 he1
      rw [hl] at he1
      simp at he1
    · intro rs1 hrs1
      simp only [Except.ok.injEq] at hrs1
      subst hrs1
      refine ⟨(generateConnectionInstancesFromConfig g rs w.uuid).1,
        (generateConnectionInstancesFromConfig g rs (list g w).2.uuid).1,
        by rw [hl], by rw [list_of_read_ok g _ rs hr2], mapSt_length _ _ _,
        mapSt_length _ _ _, ?_⟩
      intro i r c1 c2 hri h1 h2
      obtain ⟨m1, rfl⟩ := mapSt_getElem? _ _ _ _ _ _ hri h1
      obtain ⟨m2, rfl⟩ := mapSt_getElem? _ _ _ _ _ _ hri h2
      exact fromConfig_one_loadsAgree g r m1 m2

/-- C10 at a store whose first record has no id: the two loads give it two
different ids and agree on the rest. -/
theorem list_twice_agrees_witness :
    (list unaryGen (worldOf [recordNoId, recordAbc])).2.file =
      (worldOf [recordNoId, recordAbc]).file ∧
    (∃ cs1 cs2, (list unaryGen (worldOf [recordNoId, recordAbc])).1 = .ok cs1 ∧
      (list unaryGen (list unaryGen (worldOf [recordNoId, recordAbc])).2).1 = .ok cs2 ∧
      cs1.length = [recordNoId, recordAbc].length ∧
      cs2.length = [recordNoId, recordAbc].length ∧
      ∀ (i : Nat) (r : ConnectionConfig) (c1 c2 : Connection),
        [recordNoId, recordAbc][i]? = some r → cs1[i]? = some c1 → cs2[i]? = some c2 →
          r.loadsAgree c1 c2) ∧
    ((list unaryGen (worldOf [recordNoId, recordAbc])).1.toOption.map
        (fun cs => cs.map (fun c => c.id))) = some [.str "u", .str "abc"] ∧
    ((list unaryGen (list unaryGen (worldOf [recordNoId, recordAbc])).2).1.toOption.map
        (fun cs => cs.map (fun c => c.id))) = some [.str "uuu", .str "abc"] :=
  ⟨(list_twice_agrees unaryGen (worldOf [recordNoId, recordAbc])).1,
   (list_twice_agrees unaryGen (worldOf [recordNoId, recordAbc])).2.2.2 _ rfl,
   rfl, rfl⟩

/-- C11: `readConfigFile` fails exactly when the file read reports an error
whose message is not `Unexpected end of input`; it then fails with that very
error, and so do `list()`, `create(options)` and `delete(id)`, the last two
without a write (the file is what it was).  In every other case
`readConfigFile` resolves with the data read, or with the empty list when the
read gave no data. -/
theorem readConfigFile_fails_iff (g : IdGen) (w : World) :
    ((∃ err, (readConfigFile w).1 = .error err) ↔
      ∃ e, (jsonfile.readFile w.file).1 = some e ∧
        e.message ≠ some "Unexpected end of input") ∧
    (∀ e, (jsonfile.readFile w.file).1 = some e →
      e.message ≠ some "Unexpected end of input" →
      (readConfigFile w).1 = .error (.storage e) ∧
      (list g w).1 = .error (.storage e) ∧
      (∀ o, (create g (some o) w).1 = .error (.storage e) ∧
        (create g (some o) w).2.file = w.file ∧
        (create g (some o) w).2.writes = w.writes) ∧
      (∀ id, (delete g id w).1 = .error (.storage e) ∧
        (delete g id w).2.file = w.file ∧
        (delete g id w).2.writes = w.writes)) ∧
    ((¬ ∃ e, (jsonfile.readFile w.file).1 = some e ∧
        e.message ≠ some "Unexpected end of input") →
      (readConfigFile w).1 = .ok ((jsonfile.readFile w.file).2.getD [])) := by
  have hok : (¬ ∃ e, (jsonfile.readFile w.file).1 = some e ∧
        e.message ≠ some "Unexpected end of input") →
      (readConfigFile w).1 = .ok ((jsonfile.readFile w.file).2.getD []) := by
    intro hno
    apply readConfigFile_of_tolerated
    intro e he
    by_contra hm
    exact hno ⟨e, he, hm⟩
  refine ⟨⟨?_, ?_⟩, ?_, hok⟩
  · rintro ⟨err, herr⟩
    by_contra hno
    rw [hok hno] at herr
    simp at herr
  · rintro ⟨e, he, hm⟩
    exact ⟨_, readConfigFile_of_error w e he hm⟩
  · intro e he hm
    have hr := readConfigFile_of_error w e he hm
    refine ⟨hr, ?_, ?_, ?_⟩
    · rw [list_of_read_error g w _ hr]
    · intro o
      rw [create_of_read_error g o w _ hr]
      exact ⟨rfl, rfl, rfl⟩
    · intro id
      rw [delete_of_read_error g id w _ hr]
      exact ⟨rfl, rfl, rfl⟩

/-- C11 at a missing file, at a malformed file and at a zero-byte file. -/
theorem readConfigFile_fails_iff_witness :
    (list unaryGen (worldWith .missing)).1 = .error (.storage enoent) ∧
    ((create unaryGen (some optionsP3) (worldWith malformedFile)).1 =
        .error (.storage { code := "SyntaxError", message := some "Unexpected token ] in JSON" }) ∧
      (create unaryGen (some optionsP3) (worldWith malformedFile)).2.file =
        (worldWith malformedFile).file ∧
      (create unaryGen (some optionsP3) (worldWith malformedFile)).2.writes =
        (worldWith malformedFile).writes) ∧
    (readConfigFile (worldWith .empty)).1 = .ok [] :=
  ⟨((readConfigFile_fails_iff unaryGen (worldWith .missing)).2.1 enoent rfl (by decide)).2.1,
   ((readConfigFile_fails_iff unaryGen (worldWith malformedFile)).2.1 _ rfl
      (by decide)).2.2.1 optionsP3,
   (readConfigFile_fails_iff unaryGen (worldWith .empty)).2.2 (by
      rintro ⟨e, he, hm⟩
      have h1 : unexpectedEnd = e := Option.some.inj he
      subst h1
      exact hm rfl)⟩

/-- C12: when the stored records all have truthy (non-empty) and pairwise
distinct ids, the ids written by a successful `create` are the stored ids
followed by the id drawn for the new connection, and they are pairwise
distinct as soon as that id occurs nowhere in the store; the ids written by a
successful `delete` are a sublist of the stored ids, hence pairwise distinct. -/
theorem ids_stay_distinct (g : IdGen) (w w1 : World) (rs : List ConnectionConfig)
    (hread : (readConfigFile w).1 = .ok rs)
    (htruthy : ∀ r ∈ rs, r.id.truthy = true)
    (hnodup : (rs.map (fun r => r.id)).Nodup) :
    (∀ o c, JVal.str (g.draw w.uuid) ∉ rs.map (fun r => r.id) →
      create g (some o) w = (.ok c, w1) →
      ∃ out, w1.file = .json (some out) ∧
        out.map (fun r => r.id) = rs.map (fun r => r.id) ++ [JVal.str (g.draw w.uuid)] ∧
        (out.map (fun r => r.id)).Nodup ∧ ∀ r ∈ out, r.id.truthy = true) ∧
    (∀ id, delete g id w = (.ok (), w1) →
      ∃ out, w1.file = .json (some out) ∧
        (out.map (fun r => r.id)).Sublist (rs.map (fun r => r.id)) ∧
        (out.map (fun r => r.id)).Nodup ∧ ∀ r ∈ out, r.id.truthy = true) := by
  constructor
  · intro o c hfresh hc
    obtain ⟨-, hf⟩ := create_ok_inv g o w w1 c hc
    rw [create_of_read_ok g o w rs hread hf] at hc
    simp only [Prod.mk.injEq, Except.ok.injEq] at hc
    obtain ⟨-, hw1⟩ := hc
    subst hw1
    have hLids := fromConfig_ids g rs (w.uuid + 1) htruthy
    have hLt := fromConfig_ids_truthy g rs (w.uuid + 1)
    generalize generateConnectionInstancesFromConfig g rs (w.uuid + 1) = L at hLids hLt
    have hct : (createConnection g { o with id := .str (g.draw w.uuid) } L.2).1.id.truthy
        = true := by
      show (JVal.str (g.draw w.uuid)).truthy = true
      simpa [JVal.truthy] using g.nonempty w.uuid
    have hall : ∀ a ∈ L.1 ++ [(createConnection g { o with id := .str (g.draw w.uuid) } L.2).1],
        a.id.truthy = true := by
      intro a ha
      rcases List.mem_append.mp ha with ha | ha
      · exact hLt a ha
      · rw [List.mem_singleton.mp ha]; exact hct
    have hids := toConfig_ids g _ (L.2 + 1) hall
    rw [List.map_append, hLids] at hids
    refine ⟨_, rfl, hids, ?_, toConfig_ids_truthy g _ _⟩
    rw [hids]
    refine List.Nodup.append hnodup (List.nodup_singleton _) ?_
    intro x hx hx1
    rw [List.map_singleton, List.mem_singleton] at hx1
    have hx2 : x = JVal.str (g.draw w.uuid) := hx1
    exact hfresh (hx2 ▸ hx)
  · intro id hd
    obtain ⟨rs1, remaining, hr1, hf, hrem⟩ := delete_ok_inv g id w w1 hd
    rw [hread] at hr1
    simp only [Except.ok.injEq] at hr1
    subst hr1
    rw [delete_of_removed g id w rs remaining hread hf hrem] at hd
    simp only [Prod.mk.injEq, true_and] at hd
    subst hd
    obtain ⟨i, -, rfl⟩ := removeConnection_ok_inv id _ _ hrem
    have hLids := fromConfig_ids g rs w.uuid htruthy
    have hLt := fromConfig_ids_truthy g rs w.uuid
    generalize generateConnectionInstancesFromConfig g rs w.uuid = L at hLids hLt
    have hsub : (L.1.eraseIdx i).Sublist L.1 := List.eraseIdx_sublist L.1 i
    have hids := toConfig_ids g (L.1.eraseIdx i) L.2 (fun a ha => hLt a (hsub.subset ha))
    have hsubids : ((convertConnectionInstancesIntoConfig g (L.1.eraseIdx i) L.2).1.map
        (fun r => r.id)).Sublist (rs.map (fun r => r.id)) := by
      rw [hids, ← hLids]
      exact hsub.map _
    exact ⟨_, rfl, hsubids, List.Nodup.sublist hsubids hnodup, toConfig_ids_truthy g _ _⟩

/-- C12 at the store holding `recordAbc`: a `create` and a `delete("abc")`. -/
theorem ids_stay_distinct_witness :
    (∃ out, (create unaryGen (some optionsP3) (worldOf [recordAbc])).2.file =
        .json (some out) ∧
      out.map (fun r => r.id) =
        [recordAbc].map (fun r => r.id) ++ [JVal.str (unaryGen.draw (worldOf [recordAbc]).uuid)] ∧
      (out.map (fun r => r.id)).Nodup ∧ ∀ r ∈ out, r.id.truthy = true) ∧
    (∃ out, (delete unaryGen (.str "abc") (worldOf [recordAbc])).2.file = .json (some out) ∧
      (out.map (fun r => r.id)).Sublist ([recordAbc].map (fun r => r.id)) ∧
      (out.map (fun r => r.id)).Nodup ∧ ∀ r ∈ out, r.id.truthy = true) :=
  ⟨(ids_stay_distinct unaryGen (worldOf [recordAbc])
      (create unaryGen (some optionsP3) (worldOf [recordAbc])).2 [recordAbc] rfl
      (by decide) (by decide)).1 optionsP3 createdP3 (by decide) rfl,
   (ids_stay_distinct unaryGen (worldOf [recordAbc])
      (delete unaryGen (.str "abc") (worldOf [recordAbc])).2 [recordAbc] rfl
      (by decide) (by decide)).2 (.str "abc") rfl⟩

/-- C13: `fromConfig` is total and returns one Connection per record, in
input order.  Each Connection has the name, host and port of its record and
the id of the record when that is truthy, a drawn id otherwise; it has one
Database per database record, in order (none when the record has no
`databases`), each with the name and the auth of the database record, the
host and port of the connection record, and the id of the database record
when that is truthy, a drawn id otherwise.  The number of ids drawn is the
number of ids that are missing. -/
theorem fromConfig_builds_entities (g : IdGen) (rs : List ConnectionConfig) (n : Nat) :
    (generateConnectionInstancesFromConfig g rs n).1.length = rs.length ∧
    (∀ (i : Nat) (r : ConnectionConfig) (c : Connection),
      rs[i]? = some r → (generateConnectionInstancesFromConfig g rs n).1[i]? = some c →
        r.builds g c ∧ (r.databases = none → c.databases = [])) ∧
    (generateConnectionInstancesFromConfig g rs n).2 =
      n + (rs.map ConnectionConfig.missingIds).sum := by
  refine ⟨mapSt_length _ _ _, ?_, mapSt_snd _ _ (fromConfig_one_snd g) rs n⟩
  intro i r c hr hc
  obtain ⟨m, rfl⟩ := mapSt_getElem? _ _ _ _ _ _ hr hc
  refine ⟨fromConfig_one_builds g r m, ?_⟩
  intro hnone
  rw [fromConfig_one, hnone]
  rfl

/-- C13 at the records `recordNoId` and `recordAbc`: two ids are missing, two
are drawn. -/
theorem fromConfig_builds_entities_witness :
    (generateConnectionInstancesFromConfig unaryGen [recordNoId, recordAbc] 0).1 =
      [{ id := .str "u", name := .str "n2", host := .str "h2", port := .num 27019,
         databases := [] },
       { id := .str "abc", name := .str "n0", host := .str "h0", port := .num 27017,
         databases :=
           [{ id := .str "uu", name := .str "d0", host := .str "h0", port := .num 27017,
              auth := none }] }] ∧
    (generateConnectionInstancesFromConfig unaryGen [recordNoId, recordAbc] 0).2 =
      0 + ([recordNoId, recordAbc].map ConnectionConfig.missingIds).sum ∧
    (recordNoId.builds unaryGen
        { id := .str "u", name := .str "n2", host := .str "h2", port := .num 27019,
          databases := [] } ∧
      (recordNoId.databases = none →
        ({ id := .str "u", name := .str "n2", host := .str "h2", port := .num 27019,
           databases := [] } : Connection).databases = [])) :=
  ⟨rfl, (fromConfig_builds_entities unaryGen [recordNoId, recordAbc] 0).2.2,
   (fromConfig_builds_entities unaryGen [recordNoId, recordAbc] 0).2.1 0 recordNoId _ rfl rfl⟩

/-- C14: when some connection has the id, `removeConnection` resolves with
the list without the first connection that has it: everything before (no
match there) and everything after (later matches included) is kept in order,
and the result is one element shorter.  Without a match nothing is removed:
the call is rejected. -/
theorem removeConnection_removes_first_match (id : JVal) (cs : List Connection) :
    ((∃ c ∈ cs, c.id = id) →
      ∃ (before after : List Connection) (found : Connection),
        cs = before ++ found :: after ∧ found.id = id ∧ (∀ a ∈ before, a.id ≠ id) ∧
        removeConnection id cs = .ok (before ++ after) ∧
        (before ++ after).length + 1 = cs.length) ∧
    ((∀ c ∈ cs, c.id ≠ id) →
      removeConnection id cs = .error (.error "Connection not found")) := by
  refine ⟨?_, removeConnection_not_found id cs⟩
  rintro ⟨c, hc, hid⟩
  have hsome : (cs.find? (fun c => c.id == id)).isSome = true := by
    rw [List.find?_isSome]
    exact ⟨c, hc, by simp [hid]⟩
  obtain ⟨found, hfound⟩ := Option.isSome_iff_exists.mp hsome
  obtain ⟨hp, before, after, hsplit, hbefore⟩ := List.find?_eq_some.mp hfound
  have hfid : found.id = id := by simpa using hp
  have hne : ∀ a ∈ before, a.id ≠ id := by
    intro a ha
    simpa using hbefore a ha
  refine ⟨before, after, found, hsplit, hfid, hne, ?_, ?_⟩
  · rw [hsplit]
    exact removeConnection_of_split id before after found hfid hne
  · rw [hsplit]
    simp
    omega

/-- C14 at a list in which two connections have the id `abc`: the first is
removed, the second stays. -/
theorem removeConnection_removes_first_match_witness :
    ∃ (before after : List Connection) (found : Connection),
      [loadedAbc, connectionWithAuth] = before ++ found :: after ∧
      found.id = .str "abc" ∧ (∀ a ∈ before, a.id ≠ .str "abc") ∧
      removeConnection (.str "abc") [loadedAbc, connectionWithAuth] = .ok (before ++ after) ∧
      (before ++ after).length + 1 = [loadedAbc, connectionWithAuth].length ∧
      removeConnection (.str "abc") [loadedAbc, connectionWithAuth] =
        .ok [connectionWithAuth] := by
  obtain ⟨before, after, found, h1, h2, h3, h4, h5⟩ :=
    (removeConnection_removes_first_match (.str "abc") [loadedAbc, connectionWithAuth]).1
      ⟨loadedAbc, by decide, rfl⟩
  exact ⟨before, after, found, h1, h2, h3, h4, h5, rfl⟩

/-- C15: a stored record with a truthy (non-empty) id and a `databases`
array that is loaded and written back has the same id, name, host and port,
the same number of databases with the same names in order, and for each
database the same presence or absence of auth with the same username and
password.  This is what a successful `create` writes for every stored record
and a successful `delete` for every stored record but the removed one. -/
theorem rewrite_is_lossless (g : IdGen) :
    (∀ (r : ConnectionConfig) (dbs : List DatabaseConfig) (n k : Nat),
      r.id.truthy = true → r.databases = some dbs →
      r.rewrittenAs
        (convertConnectionInstanceIntoConfig g
          (generateConnectionInstanceFromConfig g r n).1 k).1) ∧
    (∀ (w w1 : World) (rs : List ConnectionConfig), (readConfigFile w).1 = .ok rs →
      (∀ o c, create g (some o) w = (.ok c, w1) →
        ∃ old added, w1.file = .json (some (old ++ [added])) ∧
          List.Forall₂ ConnectionConfig.losslessIn rs old) ∧
      (∀ id, delete g id w = (.ok (), w1) →
        ∃ i out, i < rs.length ∧ w1.file = .json (some out) ∧
          List.Forall₂ ConnectionConfig.losslessIn (rs.eraseIdx i) out)) := by
  have hone : ∀ (r : ConnectionConfig) (n k : Nat),
      r.losslessIn (convertConnectionInstanceIntoConfig g
        (generateConnectionInstanceFromConfig g r n).1 k).1 :=
    fun r n k hid dbs hdbs => record_rewrittenAs g r dbs n k hid hdbs
  refine ⟨fun r dbs n k hid hdbs => record_rewrittenAs g r dbs n k hid hdbs, ?_⟩
  intro w w1 rs hread
  constructor
  · intro o c hc
    obtain ⟨-, hf⟩ := create_ok_inv g o w w1 c hc
    rw [create_of_read_ok g o w rs hread hf] at hc
    simp only [Prod.mk.injEq, Except.ok.injEq] at hc
    obtain ⟨-, hw1⟩ := hc
    subst hw1
    refine ⟨(convertConnectionInstancesIntoConfig g
        (generateConnectionInstancesFromConfig g rs (w.uuid + 1)).1
        ((generateConnectionInstancesFromConfig g rs (w.uuid + 1)).2 + 1)).1,
      (convertConnectionInstanceIntoConfig g
        (createConnection g { o with id := .str (g.draw w.uuid) }
          (generateConnectionInstancesFromConfig g rs (w.uuid + 1)).2).1
        (convertConnectionInstancesIntoConfig g
          (generateConnectionInstancesFromConfig g rs (w.uuid + 1)).1
          ((generateConnectionInstancesFromConfig g rs (w.uuid + 1)).2 + 1)).2).1, ?_, ?_⟩
    · simp only [convertConnectionInstancesIntoConfig, mapSt_append, mapSt]
    · exact mapSt_mapSt_forall₂ _ _ _ hone rs _ _
  · intro id hd
    obtain ⟨rs1, remaining, hr1, hf, hrem⟩ := delete_ok_inv g id w w1 hd
    rw [hread] at hr1
    simp only [Except.ok.injEq] at hr1
    subst hr1
    rw [delete_of_removed g id w rs remaining hread hf hrem] at hd
    simp only [Prod.mk.injEq, true_and] at hd
    subst hd
    obtain ⟨i, hi, rfl⟩ := removeConnection_ok_inv id _ _ hrem
    have hlen : (generateConnectionInstancesFromConfig g rs w.uuid).1.length = rs.length :=
      mapSt_length _ _ _
    refine ⟨i, _, hlen ▸ hi, rfl, ?_⟩
    have h1 : List.Forall₂
        (fun r c => ∃ m, c = (generateConnectionInstanceFromConfig g r m).1) rs
        (generateConnectionInstancesFromConfig g rs w.uuid).1 :=
      mapSt_forall₂ _ _ rs (fun r _ m => ⟨m, rfl⟩) _
    have h2 : List.Forall₂
        (fun c r1 => ∃ k, r1 = (convertConnectionInstanceIntoConfig g c k).1)
        ((generateConnectionInstancesFromConfig g rs w.uuid).1.eraseIdx i)
        (convertConnectionInstancesIntoConfig g
          ((generateConnectionInstancesFromConfig g rs w.uuid).1.eraseIdx i)
          (generateConnectionInstancesFromConfig g rs w.uuid).2).1 :=
      mapSt_forall₂ _ _ _ (fun c _ k => ⟨k, rfl⟩) _
    refine forall₂_chain _ _ _ ?_ _ _ _ (forall₂_eraseIdx _ _ _ h1 i) h2
    rintro r c r1 ⟨m, rfl⟩ ⟨k, rfl⟩
    exact hone r m k

/-- C15 at `recordWithAuth`: the record written back differs from the stored
one in the id of the auth block and in the id of the database record only. -/
theorem rewrite_is_lossless_witness :
    recordWithAuth.rewrittenAs
      (convertConnectionInstanceIntoConfig unaryGen
        (generateConnectionInstanceFromConfig unaryGen recordWithAuth 0).1 0).1 ∧
    (convertConnectionInstanceIntoConfig unaryGen
        (generateConnectionInstanceFromConfig unaryGen recordWithAuth 0).1 0).1 =
      { id := .str "abc", name := .str "n0", host := .str "h0", port := .num 27017
        databases := some
          [{ id := .undefined, name := .str "d0", host := .undefined, port := .undefined,
             auth := some
               { id := .str "d1", username := .str "user", password := .str "pw" } }] } :=
  ⟨(rewrite_is_lossless unaryGen).1 recordWithAuth _ 0 0 rfl rfl, rfl⟩

/-- C16: for a stored database record with an auth block, `fromConfig`
followed by `toConfig` emits an auth block whose id is the id of the Database
entity: the id of the database record when that is truthy, otherwise the id
drawn for it at load time.  No id is drawn by `toConfig`, and the id stored
inside the auth block has no influence on the outcome.  Within a whole
record this holds for each database, position by position. -/
theorem auth_id_not_carried (g : IdGen) (r : ConnectionConfig) (rd : DatabaseConfig)
    (a : Auth) (n k : Nat) (ha : rd.auth = some a) :
    (convertDatabase g (databaseFromConfig g r rd n).1 k).1.auth =
      some { id := (databaseFromConfig g r rd n).1.id
             username := a.username, password := a.password } ∧
    (convertDatabase g (databaseFromConfig g r rd n).1 k).2 = k ∧
    (rd.id.truthy = true → (databaseFromConfig g r rd n).1.id = rd.id) ∧
    (rd.id.truthy = false → (databaseFromConfig g r rd n).1.id = .str (g.draw n)) ∧
    (∀ x : JVal,
      convertDatabase g
        (databaseFromConfig g r { rd with auth := some { a with id := x } } n).1 k =
      convertDatabase g (databaseFromConfig g r rd n).1 k) ∧
    (∀ (dbs : List DatabaseConfig) (j m : Nat), r.databases = some dbs → dbs[j]? = some rd →
      ∃ (d : Database) (out : List DatabaseConfig) (rd1 : DatabaseConfig),
        (generateConnectionInstanceFromConfig g r m).1.databases[j]? = some d ∧
        rd.builds g r d ∧
        (convertConnectionInstanceIntoConfig g
          (generateConnectionInstanceFromConfig g r m).1 k).1.databases = some out ∧
        out[j]? = some rd1 ∧
        rd1.auth = some { id := d.id, username := a.username, password := a.password }) := by
  have hauth : ∀ m, (databaseFromConfig g r rd m).1.auth = some a := fun _ => ha
  have hconv : ∀ m j, convertDatabase g (databaseFromConfig g r rd m).1 j =
      ({ id := .undefined, name := rd.name, host := .undefined, port := .undefined,
         auth := some { id := (databaseFromConfig g r rd m).1.id
                        username := a.username, password := a.password } }, j) :=
    fun m j => convertDatabase_of_auth g _ a j (hauth m) (databaseFromConfig_id_truthy g r rd m)
  refine ⟨by rw [hconv], by rw [hconv], ?_, ?_, ?_, ?_⟩
  · intro h
    exact (databaseFromConfig_builds g r rd n).2.2.2.2.1 h
  · intro h
    exact orUuid_of_falsy g rd.id n h
  · intro x
    rw [hconv, convertDatabase_of_auth g _ { a with id := x } k rfl
      (databaseFromConfig_id_truthy g r _ n)]
    rfl
  · intro dbs j m hdbs hj
    rw [fromConfig_one]
    simp only [hdbs, Option.getD_some]
    obtain ⟨m1, hm1⟩ := mapSt_getElem?_some (databaseFromConfig g r) dbs
      (orUuid g r.id m).2 j rd hj
    obtain ⟨k1, hk1⟩ := mapSt_getElem?_some (convertDatabase g)
      (mapSt (databaseFromConfig g r) dbs (orUuid g r.id m).2).1
      (orUuid g (orUuid g r.id m).1 k).2 j _ hm1
    refine ⟨_, _, _, hm1, databaseFromConfig_builds g r rd m1, rfl, hk1, ?_⟩
    rw [hconv]

/-- C16 at a database record with id `d1` and at one without id, both with
an auth block of id `a1`. -/
theorem auth_id_not_carried_witness :
    (convertDatabase unaryGen
        (databaseFromConfig unaryGen recordWithAuth
          { databaseRecordNoId with id := .str "d1" } 0).1 1).1.auth =
      some { id := .str "d1", username := .str "user", password := .str "pw" } ∧
    (convertDatabase unaryGen
        (databaseFromConfig unaryGen recordWithAuth databaseRecordNoId 0).1 1).1.auth =
      some { id := .str "u", username := .str "user", password := .str "pw" } :=
  ⟨(auth_id_not_carried unaryGen recordWithAuth { databaseRecordNoId with id := .str "d1" }
      { id := .str "a1", username := .str "user", password := .str "pw" } 0 1 rfl).1,
   (auth_id_not_carried unaryGen recordWithAuth databaseRecordNoId
      { id := .str "a1", username := .str "user", password := .str "pw" } 0 1 rfl).1⟩

end Mongotron
